import Mathlib

/-!
Shallow embedding of the mcpfile repository core (config parser, connection
state machine, client manager) together with proofs settling the frozen
claims about its specification.

Sources embedded:
- packages/schemas/src/index.ts   (Zod schemas, `ServerConfigSchema` preprocess)
- packages/mcpfile/src/file.ts    (parsing, interpolation, `File.fromJson`)
- packages/mcpfile/src/client.ts  (connection state machine, capability filtering)
- packages/mcpfile/src/manager.ts (`ClientManager`: bulk connect, reload, fromJSON)

JavaScript objects are modelled as insertion-ordered association lists,
JavaScript strings as Lean `String` (character-based; all strings involved
are ASCII), and effectful/Promise-returning code as explicit state passing
with `Except` for failure.  External inputs (the process environment, the
user's home directory, the URL-format validator of `z.url()`, the outcome of
a transport handshake) are passed in as explicit parameters.
-/

namespace Mcpfile

/-! ### JSON values

JavaScript objects keep insertion order; we model them as association lists. -/

inductive Json where
  | null : Json
  | bool (b : Bool) : Json
  | num (n : Int) : Json
  | str (s : String) : Json
  | arr (elems : List Json) : Json
  | obj (fields : List (String × Json)) : Json
deriving Repr

/-- JavaScript truthiness of a JSON value ( `if (config.type)` etc.). -/
def Json.truthy : Json → Bool
  | Json.null => false
  | Json.bool b => b
  | Json.num n => decide (n ≠ 0)
  | Json.str s => decide (s ≠ "")
  | Json.arr _ => true
  | Json.obj _ => true

/-- Property lookup on an insertion-ordered object (`config[key]`): the
first entry with the key wins. -/
def lookupEntry {α : Type} : List (String × α) → String → Option α
  | [], _ => none
  | p :: rest, key => if p.1 == key then some p.2 else lookupEntry rest key

/-- `key in config` (property presence regardless of value). -/
def hasEntry {α : Type} : List (String × α) → String → Bool
  | [], _ => false
  | p :: rest, key => p.1 == key || hasEntry rest key

/-- JavaScript spread-then-assign (`{...config, key: v}`): an existing key keeps
its position but gets the new value, a fresh key is appended. -/
def setEntry {α : Type} (l : List (String × α)) (key : String) (v : α) : List (String × α) :=
  if hasEntry l key then l.map (fun p => if p.1 == key then (key, v) else p)
  else l ++ [(key, v)]

/-- `delete map[key]`. -/
def removeEntry {α : Type} (l : List (String × α)) (key : String) : List (String × α) :=
  l.filter (fun p => p.1 != key)

def Json.getField : Json → String → Option Json
  | Json.obj fields, key => lookupEntry fields key
  | _, _ => none

/-! ### Core enums (client.ts / file.ts) -/

inductive TransportType where
  | stdio | http | sse
deriving DecidableEq, Repr

def TransportType.toStr : TransportType → String
  | TransportType.stdio => "stdio"
  | TransportType.http => "http"
  | TransportType.sse => "sse"

inductive ConnectionState where
  | disconnected | connecting | connected | reconnecting | failed
deriving DecidableEq, Repr

/-- `Allowed` from packages/schemas (`AllowedSchema`): optional allow-lists per
capability kind. -/
structure Allowed where
  tools : Option (List String) := none
  prompts : Option (List String) := none
  resources : Option (List String) := none
deriving DecidableEq, Repr

inductive CapabilityKind where
  | tools | prompts | resources
deriving DecidableEq, Repr

/-- `server._metadata.allowed?.[type]` — the allow list for one capability kind. -/
def Allowed.forKind (a : Allowed) : CapabilityKind → Option (List String)
  | CapabilityKind.tools => a.tools
  | CapabilityKind.prompts => a.prompts
  | CapabilityKind.resources => a.resources

/-! ### packages/schemas/src/index.ts — Zod schemas

`ServerConfigSchema = z.preprocess(..., z.union([HttpServerConfigSchema,
StdioServerConfigSchema]))`.  The preprocess adds a `type` field by field
presence when none is (truthily) present; the union tries the http member
first, then the stdio member. -/

/-- The field-presence inference of `ServerConfigSchema`'s preprocess: `url`
is checked before `command`. -/
def serverConfigInferType (fields : List (String × Json)) : Json :=
  if hasEntry fields "url" then Json.obj (setEntry fields "type" (Json.str "http"))
  else if hasEntry fields "command" then Json.obj (setEntry fields "type" (Json.str "stdio"))
  else Json.obj fields

/-- The `z.preprocess` step of `ServerConfigSchema`: a present truthy `type`
is kept (the value is returned unchanged), otherwise the type is inferred
from field presence.  Non-object values pass through unchanged. -/
def serverConfigPreprocess : Json → Json
  | Json.obj fields =>
      if (lookupEntry fields "type").any Json.truthy then Json.obj fields
      else serverConfigInferType fields
  | v => v

/-- Parsed `HttpServerConfigSchema` output (defaults applied). -/
structure HttpServerConfig where
  type : String
  url : String
  headers : Option (List (String × String)) := none
  disabled : Bool
  allowed : Option Allowed := none
  env : Option (List (String × String)) := none
  envFile : Option String := none
deriving DecidableEq, Repr

/-- Parsed `StdioServerConfigSchema` output (defaults applied). -/
structure StdioServerConfig where
  type : String
  command : String
  args : Option (List String) := none
  cwd : Option String := none
  disabled : Bool
  allowed : Option Allowed := none
  env : Option (List (String × String)) := none
  envFile : Option String := none
deriving DecidableEq, Repr

/-- `ServerConfig = z.infer<typeof ServerConfigSchema>` — which union member
accepted the entry. -/
inductive ServerConfig where
  | http (config : HttpServerConfig) : ServerConfig
  | stdio (config : StdioServerConfig) : ServerConfig
deriving DecidableEq, Repr

def ServerConfig.type : ServerConfig → String
  | ServerConfig.http c => c.type
  | ServerConfig.stdio c => c.type

def ServerConfig.disabled : ServerConfig → Bool
  | ServerConfig.http c => c.disabled
  | ServerConfig.stdio c => c.disabled

def ServerConfig.allowed : ServerConfig → Option Allowed
  | ServerConfig.http c => c.allowed
  | ServerConfig.stdio c => c.allowed

/-! Field parsers for the Zod object schemas.  Each returns the parsed value
or a list of `path: message` issues (the shape `File.fromJson` reports). -/

def issuesOf {α : Type} : Except (List String) α → List String
  | Except.error e => e
  | Except.ok _ => []

/-- `z.string()` on a required field. -/
def parseStringField (fields : List (String × Json)) (key : String) :
    Except (List String) String :=
  match lookupEntry fields key with
  | none => Except.error [key ++ ": Required"]
  | some (Json.str s) => Except.ok s
  | some _ => Except.error [key ++ ": Expected string"]

/-- `z.string().default(d)`. -/
def parseStringDefaultField (fields : List (String × Json)) (key : String)
    (dflt : String) : Except (List String) String :=
  match lookupEntry fields key with
  | none => Except.ok dflt
  | some (Json.str s) => Except.ok s
  | some _ => Except.error [key ++ ": Expected string"]

/-- `z.boolean().default(d)`. -/
def parseBoolDefaultField (fields : List (String × Json)) (key : String)
    (dflt : Bool) : Except (List String) Bool :=
  match lookupEntry fields key with
  | none => Except.ok dflt
  | some (Json.bool b) => Except.ok b
  | some _ => Except.error [key ++ ": Expected boolean"]

/-- `z.string().optional()`. -/
def parseOptStringField (fields : List (String × Json)) (key : String) :
    Except (List String) (Option String) :=
  match lookupEntry fields key with
  | none => Except.ok none
  | some (Json.str s) => Except.ok (some s)
  | some _ => Except.error [key ++ ": Expected string"]

/-- `z.url()` — a string in URL format; the format check itself is the
external library's, passed in as `urlOk`. -/
def parseUrlField (urlOk : String → Bool) (fields : List (String × Json))
    (key : String) : Except (List String) String :=
  match lookupEntry fields key with
  | none => Except.error [key ++ ": Required"]
  | some (Json.str s) =>
      if urlOk s then Except.ok s else Except.error [key ++ ": Invalid URL"]
  | some _ => Except.error [key ++ ": Expected string"]

def parseStringList (key : String) : List Json → Except (List String) (List String)
  | [] => Except.ok []
  | Json.str s :: rest =>
      match parseStringList key rest with
      | Except.ok l => Except.ok (s :: l)
      | Except.error e => Except.error e
  | _ :: _ => Except.error [key ++ ": Expected string"]

/-- `z.array(z.string()).optional()`. -/
def parseOptStringArrayField (fields : List (String × Json)) (key : String) :
    Except (List String) (Option (List String)) :=
  match lookupEntry fields key with
  | none => Except.ok none
  | some (Json.arr xs) =>
      match parseStringList key xs with
      | Except.ok l => Except.ok (some l)
      | Except.error e => Except.error e
  | some _ => Except.error [key ++ ": Expected array"]

def parseStringPairs (key : String) :
    List (String × Json) → Except (List String) (List (String × String))
  | [] => Except.ok []
  | (k, Json.str s) :: rest =>
      match parseStringPairs key rest with
      | Except.ok l => Except.ok ((k, s) :: l)
      | Except.error e => Except.error e
  | _ :: _ => Except.error [key ++ ": Expected string"]

/-- `z.record(z.string(), z.string()).optional()`. -/
def parseOptStringRecordField (fields : List (String × Json)) (key : String) :
    Except (List String) (Option (List (String × String))) :=
  match lookupEntry fields key with
  | none => Except.ok none
  | some (Json.obj kvs) =>
      match parseStringPairs key kvs with
      | Except.ok l => Except.ok (some l)
      | Except.error e => Except.error e
  | some _ => Except.error [key ++ ": Expected object"]

/-- `AllowedSchema.optional()` — an object of three optional string arrays
(unknown keys are stripped by the non-strict Zod object). -/
def parseAllowedOptField (fields : List (String × Json)) (key : String) :
    Except (List String) (Option Allowed) :=
  match lookupEntry fields key with
  | none => Except.ok none
  | some (Json.obj kvs) =>
      match parseOptStringArrayField kvs "tools",
            parseOptStringArrayField kvs "prompts",
            parseOptStringArrayField kvs "resources" with
      | Except.ok t, Except.ok p, Except.ok r =>
          Except.ok (some { tools := t, prompts := p, resources := r })
      | t, p, r => Except.error (issuesOf t ++ issuesOf p ++ issuesOf r)
  | some _ => Except.error [key ++ ": Expected object"]

/-- `HttpServerConfigSchema.safeParse` on an object value.  Zod collects the
issues of every failing field. -/
def parseHttpServerConfig (urlOk : String → Bool)
    (fields : List (String × Json)) : Except (List String) HttpServerConfig :=
  let dE := parseBoolDefaultField fields "disabled" false
  let aE := parseAllowedOptField fields "allowed"
  let eE := parseOptStringRecordField fields "env"
  let fE := parseOptStringField fields "envFile"
  let tE := parseStringDefaultField fields "type" "http"
  let uE := parseUrlField urlOk fields "url"
  let hE := parseOptStringRecordField fields "headers"
  match dE, aE, eE, fE, tE, uE, hE with
  | Except.ok d, Except.ok a, Except.ok e, Except.ok f,
    Except.ok t, Except.ok u, Except.ok h =>
      Except.ok { type := t, url := u, headers := h, disabled := d,
                  allowed := a, env := e, envFile := f }
  | _, _, _, _, _, _, _ =>
      Except.error (issuesOf dE ++ issuesOf aE ++ issuesOf eE ++ issuesOf fE ++
        issuesOf tE ++ issuesOf uE ++ issuesOf hE)

/-- `StdioServerConfigSchema.safeParse` on an object value. -/
def parseStdioServerConfig (fields : List (String × Json)) :
    Except (List String) StdioServerConfig :=
  let dE := parseBoolDefaultField fields "disabled" false
  let aE := parseAllowedOptField fields "allowed"
  let eE := parseOptStringRecordField fields "env"
  let fE := parseOptStringField fields "envFile"
  let tE := parseStringDefaultField fields "type" "stdio"
  let cE := parseStringField fields "command"
  let gE := parseOptStringArrayField fields "args"
  let wE := parseOptStringField fields "cwd"
  match dE, aE, eE, fE, tE, cE, gE, wE with
  | Except.ok d, Except.ok a, Except.ok e, Except.ok f,
    Except.ok t, Except.ok c, Except.ok g, Except.ok w =>
      Except.ok { type := t, command := c, args := g, cwd := w, disabled := d,
                  allowed := a, env := e, envFile := f }
  | _, _, _, _, _, _, _, _ =>
      Except.error (issuesOf dE ++ issuesOf aE ++ issuesOf eE ++ issuesOf fE ++
        issuesOf tE ++ issuesOf cE ++ issuesOf gE ++ issuesOf wE)

/-- `ServerConfigSchema.safeParse`: preprocess, then the union (http member
first, stdio second; a union failure reports both members' issues). -/
def parseServerConfig (urlOk : String → Bool) (json : Json) :
    Except (List String) ServerConfig :=
  match serverConfigPreprocess json with
  | Json.obj fields =>
      match parseHttpServerConfig urlOk fields with
      | Except.ok c => Except.ok (ServerConfig.http c)
      | Except.error e1 =>
          match parseStdioServerConfig fields with
          | Except.ok c => Except.ok (ServerConfig.stdio c)
          | Except.error e2 => Except.error (e1 ++ e2)
  | _ => Except.error ["Expected object"]

/-! ### packages/mcpfile/src/file.ts — errors, options, interpolation -/

/-- The error union of the parser (`ConfigError` in file.ts): `ValidationError`
carries the server id, a message and field-level issues; `InterpolationError`
carries the offending variable name; `defect` stands for `Effect.die` in
`configToTransport`.  (File-system errors of `fromPath` are out of scope:
`fromJson` is entered with the JSON already read.) -/
inductive ConfigError where
  | validationError (serverId : String) (message : String) (errors : List String) : ConfigError
  | interpolationError (varName : String) (message : String) : ConfigError
  | defect (message : String) : ConfigError
deriving DecidableEq, Repr

/-- `ParseOptions` of file.ts. -/
structure ParseOptions where
  includeDisabled : Bool := false
  workspaceFolder : Option String := none
  env : Option (List (String × String)) := none
deriving DecidableEq, Repr

/-- External inputs of the parser: the process environment (`process.env`) and
the current user's home directory (`homedir()` from node:os). -/
structure SystemEnv where
  procEnv : List (String × String)
  homeDir : String
deriving DecidableEq, Repr

/-- `env[envVar]` on an environment mapping. -/
def lookupEnv (env : List (String × String)) (key : String) : Option String :=
  (env.find? (fun p => p.1 == key)).map Prod.snd

/-- Character-level `String.startsWith` (JS `variable.startsWith("env:")`). -/
def strStartsWith (s pre : String) : Bool :=
  pre.data.isPrefixOf s.data

/-- Character-level `String.slice(n)` (JS `variable.slice(4)`). -/
def strDrop (s : String) (n : Nat) : String :=
  String.mk (s.data.drop n)

/-- Scan for the regex `\$\{([^}]+)\}`: consume characters up to the next `}`.
Returns the consumed body and the rest after the `}`, or `none` when no `}`
follows. -/
def takeUntilBrace : List Char → Option (List Char × List Char)
  | [] => none
  | c :: rest =>
      if c == '}' then some ([], rest)
      else
        match takeUntilBrace rest with
        | none => none
        | some (body, rem) => some (c :: body, rem)

theorem takeUntilBrace_spec :
    ∀ (l body rem : List Char), takeUntilBrace l = some (body, rem) →
      l = body ++ '}' :: rem ∧ '}' ∉ body := by
  intro l
  induction l with
  | nil => intro body rem h; simp [takeUntilBrace] at h
  | cons c rest ih =>
      intro body rem h
      by_cases hc : c = '}'
      · subst hc
        simp [takeUntilBrace] at h
        obtain ⟨h1, h2⟩ := h
        subst h1; subst h2
        simp
      · simp [takeUntilBrace, hc] at h
        rcases hrec : takeUntilBrace rest with _ | ⟨b2, r2⟩
        · rw [hrec] at h; simp at h
        · rw [hrec] at h
          simp at h
          obtain ⟨h1, h2⟩ := h
          subst h1; subst h2
          obtain ⟨ih1, ih2⟩ := ih b2 r2 hrec
          subst ih1
          simp [hc, ih2]
          exact fun hh => hc hh.symm

/-- All matches of `value.matchAll(/\$\{([^}]+)\}/g)`, in order, as pairs of
the full placeholder (`match[0]`) and the captured variable body
(`match[1]`).  Every scan step consumes at least one character, so the
input length bounds the number of steps and serves as structural fuel
(`scanPlaceholders` below always supplies enough). -/
def scanPlaceholdersFuel : Nat → List Char → List (String × String)
  | 0, _ => []
  | _, [] => []
  | fuel + 1, c1 :: rest1 =>
      if c1 = '$' then
        match rest1 with
        | [] => []
        | c2 :: rest =>
            if c2 = '{' then
              match takeUntilBrace rest with
              | some (body, rem) =>
                  if body.isEmpty then scanPlaceholdersFuel fuel (c2 :: rest)
                  else (String.mk ('$' :: '{' :: body ++ ['}']), String.mk body) ::
                    scanPlaceholdersFuel fuel rem
              | none => scanPlaceholdersFuel fuel (c2 :: rest)
            else scanPlaceholdersFuel fuel (c2 :: rest)
      else scanPlaceholdersFuel fuel rest1

def scanPlaceholders (l : List Char) : List (String × String) :=
  scanPlaceholdersFuel l.length l

/-- `s.replace(pat, repl)` with a string pattern: replaces the first
occurrence only; returns `s` unchanged when the pattern does not occur. -/
def replaceFirstAux : List Char → List Char → List Char → List Char
  | [], _, _ => []
  | c :: rest, pat, repl =>
      if pat.isPrefixOf (c :: rest) then repl ++ (c :: rest).drop pat.length
      else c :: replaceFirstAux rest pat repl

def replaceFirst (s pat repl : String) : String :=
  String.mk (replaceFirstAux s.data pat.data repl.data)

/-- The per-variable resolution step inside `interpolateValue`'s match loop
(file.ts lines 435-462).  `options.env ?? process.env`; a falsy
`options.workspaceFolder` (absent or empty) is an error. -/
def resolveVariable (options : ParseOptions) (sysEnv : SystemEnv)
    (varBody : String) : Except ConfigError String :=
  let env := options.env.getD sysEnv.procEnv
  if strStartsWith varBody "env:" then
    let envVar := strDrop varBody 4
    match lookupEnv env envVar with
    | none => Except.error (ConfigError.interpolationError envVar
        ("Environment variable " ++ envVar ++ " is not defined"))
    | some envValue => Except.ok envValue
  else if varBody == "userHome" then
    Except.ok sysEnv.homeDir
  else if varBody == "workspaceFolder" then
    match options.workspaceFolder with
    | none => Except.error (ConfigError.interpolationError "workspaceFolder"
        "workspaceFolder is not defined in parse options")
    | some wf =>
        if wf == "" then
          Except.error (ConfigError.interpolationError "workspaceFolder"
            "workspaceFolder is not defined in parse options")
        else Except.ok wf
  else
    Except.error (ConfigError.interpolationError varBody
      ("Unknown interpolation variable: " ++ varBody))

/-- The `for (const match of matches)` loop of `interpolateValue`: the matches
were computed on the original string; each resolved value replaces the first
occurrence of its placeholder in the evolving result; the first resolution
error aborts. -/
def interpolateLoop (options : ParseOptions) (sysEnv : SystemEnv) :
    List (String × String) → String → Except ConfigError String
  | [], result => Except.ok result
  | (placeholder, varBody) :: rest, result =>
      match resolveVariable options sysEnv varBody with
      | Except.error e => Except.error e
      | Except.ok v =>
          interpolateLoop options sysEnv rest (replaceFirst result placeholder v)

/-- `interpolateValue` of file.ts. -/
def interpolateValue (options : ParseOptions) (sysEnv : SystemEnv)
    (value : String) : Except ConfigError String :=
  interpolateLoop options sysEnv (scanPlaceholders value.data) value

/-- The option-defaulting step of `File.fromPath`:
`workspaceFolder: options.workspaceFolder ?? dirname(absolutePath)`. -/
def fromPathOptions (configDir : String) (options : ParseOptions) : ParseOptions :=
  { options with workspaceFolder := some (options.workspaceFolder.getD configDir) }

/-! ### file.ts — validation, transport construction, `File.fromJson` -/

/-- `validateServerConfig` of file.ts: `ServerConfigSchema.safeParse`, with a
failure wrapped into a `ValidationError` carrying the server id and the
field-level issues. -/
def validateServerConfig (urlOk : String → Bool) (serverId : String)
    (config : Json) : Except ConfigError ServerConfig :=
  match parseServerConfig urlOk config with
  | Except.error issues =>
      Except.error (ConfigError.validationError serverId
        "Server configuration validation failed" issues)
  | Except.ok c => Except.ok c

/-- Interpolate every string of a list (`interpolate` on an array). -/
def interpolateStringList (options : ParseOptions) (sysEnv : SystemEnv) :
    List String → Except ConfigError (List String)
  | [] => Except.ok []
  | s :: rest => do
      let v ← interpolateValue options sysEnv s
      let vs ← interpolateStringList options sysEnv rest
      pure (v :: vs)

/-- Interpolate the values of a record (`interpolate` on an object: keys are
kept, values are walked). -/
def interpolateRecord (options : ParseOptions) (sysEnv : SystemEnv) :
    List (String × String) → Except ConfigError (List (String × String))
  | [] => Except.ok []
  | (k, s) :: rest => do
      let v ← interpolateValue options sysEnv s
      let vs ← interpolateRecord options sysEnv rest
      pure ((k, v) :: vs)

def interpolateOptString (options : ParseOptions) (sysEnv : SystemEnv) :
    Option String → Except ConfigError (Option String)
  | none => Except.ok none
  | some s => do
      let v ← interpolateValue options sysEnv s
      pure (some v)

def interpolateOptStringList (options : ParseOptions) (sysEnv : SystemEnv) :
    Option (List String) → Except ConfigError (Option (List String))
  | none => Except.ok none
  | some l => do
      let v ← interpolateStringList options sysEnv l
      pure (some v)

def interpolateOptRecord (options : ParseOptions) (sysEnv : SystemEnv) :
    Option (List (String × String)) → Except ConfigError (Option (List (String × String)))
  | none => Except.ok none
  | some l => do
      let v ← interpolateRecord options sysEnv l
      pure (some v)

def interpolateOptAllowed (options : ParseOptions) (sysEnv : SystemEnv) :
    Option Allowed → Except ConfigError (Option Allowed)
  | none => Except.ok none
  | some a => do
      let t ← interpolateOptStringList options sysEnv a.tools
      let p ← interpolateOptStringList options sysEnv a.prompts
      let r ← interpolateOptStringList options sysEnv a.resources
      pure (some { tools := t, prompts := p, resources := r })

/-- The recursive `interpolate` walk applied to a parsed server config: every
string anywhere in the object is interpolated (booleans untouched, record
keys kept). -/
def interpolateServerConfig (options : ParseOptions) (sysEnv : SystemEnv) :
    ServerConfig → Except ConfigError ServerConfig
  | ServerConfig.http c => do
      let t ← interpolateValue options sysEnv c.type
      let u ← interpolateValue options sysEnv c.url
      let h ← interpolateOptRecord options sysEnv c.headers
      let a ← interpolateOptAllowed options sysEnv c.allowed
      let e ← interpolateOptRecord options sysEnv c.env
      let f ← interpolateOptString options sysEnv c.envFile
      pure (ServerConfig.http
        { type := t, url := u, headers := h, disabled := c.disabled,
          allowed := a, env := e, envFile := f })
  | ServerConfig.stdio c => do
      let t ← interpolateValue options sysEnv c.type
      let cmd ← interpolateValue options sysEnv c.command
      let g ← interpolateOptStringList options sysEnv c.args
      let w ← interpolateOptString options sysEnv c.cwd
      let a ← interpolateOptAllowed options sysEnv c.allowed
      let e ← interpolateOptRecord options sysEnv c.env
      let f ← interpolateOptString options sysEnv c.envFile
      pure (ServerConfig.stdio
        { type := t, command := cmd, args := g, cwd := w,
          disabled := c.disabled, allowed := a, env := e, envFile := f })

/-- `TransportConfig` of file.ts, ready to hand to the SDK transports. -/
inductive TransportConfig where
  | stdio (command : String) (args : Option (List String))
      (env : List (String × String)) (cwd : Option String) : TransportConfig
  | http (url : String) (headers : Option (List (String × String))) : TransportConfig
  | sse (url : String) (headers : Option (List (String × String))) : TransportConfig
deriving DecidableEq, Repr

/-- `ServerMetadata` of file.ts (`_metadata` on the connect params). -/
structure ServerMetadata where
  version : String
  rawConfig : Json
  serverName : String
  transportType : TransportType
  disabled : Bool
  allowed : Option Allowed := none
deriving Repr

/-- `ServerConnectParams` of file.ts.  `configToTransport` returns the
transport type alongside the transport config; client.ts and manager.ts
read it off the params (`server.transportType`), so the embedding carries it
at top level next to `_metadata`. -/
structure ServerConnectParams where
  transportConfig : TransportConfig
  transportType : TransportType
  _metadata : ServerMetadata
deriving Repr

/-- `Object.assign(envVars, config.env)` after copying `process.env`:
declared entries override process entries, fresh ones are appended. -/
def mergeEnv (procEnv : List (String × String))
    (configEnv : Option (List (String × String))) : List (String × String) :=
  match configEnv with
  | none => procEnv
  | some e => e.foldl (fun acc p => setEntry acc p.1 p.2) procEnv

/-- `configToTransport` of file.ts: dispatches on the parsed `type` string;
a mismatch between the type string and the fields present is an
`Effect.die` defect. -/
def configToTransport (sysEnv : SystemEnv) (serverId : String)
    (config : ServerConfig) : Except ConfigError (TransportConfig × TransportType) :=
  let serverType := config.type
  if serverType == "http" then
    match config with
    | ServerConfig.http c =>
        Except.ok (TransportConfig.http c.url c.headers, TransportType.http)
    | ServerConfig.stdio _ =>
        Except.error (ConfigError.defect ("HTTP server " ++ serverId ++ " missing url field"))
  else if serverType == "sse" then
    match config with
    | ServerConfig.http c =>
        Except.ok (TransportConfig.sse c.url c.headers, TransportType.sse)
    | ServerConfig.stdio _ =>
        Except.error (ConfigError.defect ("SSE server " ++ serverId ++ " missing url field"))
  else if serverType == "stdio" then
    match config with
    | ServerConfig.stdio c =>
        Except.ok (TransportConfig.stdio c.command c.args
          (mergeEnv sysEnv.procEnv c.env) c.cwd, TransportType.stdio)
    | ServerConfig.http _ =>
        Except.error (ConfigError.defect ("Stdio server " ++ serverId ++ " missing command field"))
  else
    Except.error (ConfigError.defect
      ("Unknown server type \x22" ++ serverType ++ "\x22 for " ++ serverId))

/-- The connect-params map built by `fromJson` (a JS object: an
insertion-ordered map keyed by server id). -/
abbrev ConnectParams := List (String × ServerConnectParams)

/-- The `mcpServers` guard of `File.fromJson`: the field must be present,
truthy and of JS `typeof ... === "object"`.  A JS array is an object; its
`Object.entries` are its indexed elements. -/
def mcpServersEntries : Json → Option (List (String × Json))
  | Json.obj fields => some fields
  | Json.arr xs => some ((xs.enum).map (fun p => (toString p.1, p.2)))
  | _ => none

/-- One iteration of the `for (const [serverId, config] of
Object.entries(parsed.mcpServers))` loop in `File.fromJson`.  Any error
short-circuits the surrounding `Effect.gen`. -/
def fromJsonStep (urlOk : String → Bool) (sysEnv : SystemEnv)
    (options : ParseOptions) (params : ConnectParams) (entry : String × Json) :
    Except ConfigError ConnectParams := do
  let serverId := entry.1
  let rawConfig := entry.2
  let parsedConfig ← validateServerConfig urlOk serverId rawConfig
  if parsedConfig.disabled && !options.includeDisabled then
    pure params
  else do
    let interpolatedConfig ← interpolateServerConfig options sysEnv parsedConfig
    let tc ← configToTransport sysEnv serverId interpolatedConfig
    let metadata : ServerMetadata :=
      { version := "0.0.1", rawConfig := rawConfig, serverName := serverId,
        transportType := tc.2, disabled := parsedConfig.disabled,
        allowed := parsedConfig.allowed }
    pure (params ++ [(serverId,
      { transportConfig := tc.1, transportType := tc.2, _metadata := metadata })])

/-- `File.fromJson` of file.ts: the top-level `mcpServers` map must be a
truthy object, then every entry is validated, filtered for `disabled`,
interpolated and turned into transport-ready connect params.  The whole
computation runs in one `Effect.gen`, so the first failing entry fails the
whole parse. -/
def fromJson (urlOk : String → Bool) (sysEnv : SystemEnv) (json : Json)
    (options : ParseOptions) : Except ConfigError ConnectParams :=
  match (json.getField "mcpServers").bind mcpServersEntries with
  | none =>
      Except.error (ConfigError.validationError "<root>" "Invalid config structure"
        ["mcpServers field is required and must be an object"])
  | some entries => entries.foldlM (fromJsonStep urlOk sysEnv options) []

/-! ### packages/mcpfile/src/client.ts — connection state machine and
capability filtering -/

structure ClientInfo where
  name : String
  version : String
deriving DecidableEq, Repr

/-- `ClientConfig` of client.ts. -/
structure ClientConfig where
  info : ClientInfo
  server : ServerConnectParams
  maxReconnectAttempts : Option Nat := none
  initialReconnectDelay : Option Nat := none
  maxReconnectDelay : Option Nat := none
deriving Repr

/-- The `type` field of a `FilteredError`. -/
inductive FilterKind where
  | tool | prompt | resource
deriving DecidableEq, Repr

/-- The errors a client operation can return (`ConnectionError`,
`NotConnectedError`, `FilteredError`). -/
inductive ClientError where
  | connectionError (message : String) : ClientError
  | notConnectedError (message : String) : ClientError
  | filteredError (type : FilterKind) (name : String) : ClientError
deriving DecidableEq, Repr

/-- `isAllowed` of client.ts: no `allowed` entry for the kind means allow
all; otherwise exact membership (`allowed.includes(name)`). -/
def isAllowed (type : CapabilityKind) (name : String)
    (server : ServerConnectParams) : Bool :=
  match server._metadata.allowed.bind (fun a => a.forKind type) with
  | none => true
  | some allowed => allowed.contains name

/-- The mutable per-client state (the two `Ref`s of `makeClient`). -/
structure ClientState where
  connectionState : ConnectionState
  reconnectAttempts : Nat
deriving DecidableEq, Repr

/-- State at `makeClient` entry (before the initial `connect`). -/
def initialClientState : ClientState :=
  { connectionState := ConnectionState.disconnected, reconnectAttempts := 0 }

/-- The `connect` effect: sets `connecting`, performs the handshake (outcome
`ok`), and on success sets `connected` and resets the attempt counter.  On
failure the refs keep the values written before the failing await. -/
def connectStep (s : ClientState) (ok : Bool) : ClientState :=
  if ok then { connectionState := ConnectionState.connected, reconnectAttempts := 0 }
  else { s with connectionState := ConnectionState.connecting }

/-- The backoff delay computed in `handleDisconnect`:
`Math.min(initialDelay * Math.pow(2, currentAttempt - 1), maxDelay)` with
defaults 1000 and 30000. -/
def reconnectDelay (config : ClientConfig) (attempt : Nat) : Nat :=
  min ((config.initialReconnectDelay.getD 1000) * 2 ^ (attempt - 1))
    (config.maxReconnectDelay.getD 30000)

/-- Result of one `handleDisconnect` run: the state left behind, the backoff
delay slept (when a retry happens) and whether `connect` was re-attempted. -/
structure DisconnectResult where
  state : ClientState
  delay : Option Nat
  reconnectTried : Bool
deriving DecidableEq, Repr

/-- `handleDisconnect` of client.ts (the `onclose` handler), including the
`Effect.either(connect)` retry whose handshake outcome is `connectOk`:
an intentional disconnect is ignored; once the counter has reached
`maxReconnectAttempts` (default 5) the state becomes `failed` and nothing is
retried; otherwise the counter increments, the state becomes `reconnecting`,
the backoff delay is slept and `connect` is retried. -/
def handleDisconnect (config : ClientConfig) (s : ClientState)
    (connectOk : Bool) : DisconnectResult :=
  if s.connectionState == ConnectionState.disconnected then
    { state := s, delay := none, reconnectTried := false }
  else
    let maxAttempts := config.maxReconnectAttempts.getD 5
    if s.reconnectAttempts ≥ maxAttempts then
      { state := { s with connectionState := ConnectionState.failed },
        delay := none, reconnectTried := false }
    else
      let s1 : ClientState :=
        { connectionState := ConnectionState.reconnecting,
          reconnectAttempts := s.reconnectAttempts + 1 }
      { state := connectStep s1 connectOk,
        delay := some (reconnectDelay config s1.reconnectAttempts),
        reconnectTried := true }

/-- The observable events driving one client's state machine. -/
inductive ClientEvent where
  /-- an explicit `connect` call with handshake outcome `ok` -/
  | connectAttempt (ok : Bool) : ClientEvent
  /-- an unexpected transport close; `connectOk` is the outcome of the
  handshake `handleDisconnect` retries (ignored when no retry happens) -/
  | transportClose (connectOk : Bool) : ClientEvent
  /-- an explicit `disconnect` call -/
  | explicitDisconnect : ClientEvent
deriving DecidableEq, Repr

def clientStep (config : ClientConfig) (s : ClientState) : ClientEvent → ClientState
  | ClientEvent.connectAttempt ok => connectStep s ok
  | ClientEvent.transportClose ok => (handleDisconnect config s ok).state
  | ClientEvent.explicitDisconnect =>
      { s with connectionState := ConnectionState.disconnected }

/-- All reachable client states: fold the events from the initial state. -/
def runClient (config : ClientConfig) (events : List ClientEvent) : ClientState :=
  events.foldl (clientStep config) initialClientState

/-! Capability operations.  The upstream MCP response is an explicit input:
`Except.error` stands for a rejected SDK promise (mapped to a
`ConnectionError`), `Except.ok` for the upstream result. -/

structure Tool where
  name : String
  description : String := ""
deriving DecidableEq, Repr

structure Prompt where
  name : String
  description : String := ""
deriving DecidableEq, Repr

structure Resource where
  uri : String
  name : String := ""
deriving DecidableEq, Repr

/-- `ensureConnected` of client.ts. -/
def ensureConnected (connectionState : ConnectionState) : Except ClientError Unit :=
  if connectionState != ConnectionState.connected then
    Except.error (ClientError.notConnectedError "Client is not connected")
  else Except.ok ()

/-- `listTools`: requires `connected`; when the descriptor has an
`allowed.tools` entry the upstream list is filtered through `isAllowed`. -/
def listTools (config : ClientConfig) (connectionState : ConnectionState)
    (upstream : Except String (List Tool)) : Except ClientError (List Tool) := do
  let _ ← ensureConnected connectionState
  match upstream with
  | Except.error _ => Except.error (ClientError.connectionError "Failed to list tools")
  | Except.ok result =>
      if (config.server._metadata.allowed.bind Allowed.tools).isSome then
        Except.ok (result.filter
          (fun tool => isAllowed CapabilityKind.tools tool.name config.server))
      else Except.ok result

/-- `callTool`: requires `connected`; a name outside the allow list fails
with a `FilteredError` before the upstream call happens. -/
def callTool {α : Type} (config : ClientConfig) (connectionState : ConnectionState)
    (name : String) (upstream : Except String α) : Except ClientError α := do
  let _ ← ensureConnected connectionState
  if !(isAllowed CapabilityKind.tools name config.server) then
    Except.error (ClientError.filteredError FilterKind.tool name)
  else
    match upstream with
    | Except.error _ =>
        Except.error (ClientError.connectionError ("Failed to call tool " ++ name))
    | Except.ok v => Except.ok v

/-- `listPrompts`, filtering on prompt names. -/
def listPrompts (config : ClientConfig) (connectionState : ConnectionState)
    (upstream : Except String (List Prompt)) : Except ClientError (List Prompt) := do
  let _ ← ensureConnected connectionState
  match upstream with
  | Except.error _ => Except.error (ClientError.connectionError "Failed to list prompts")
  | Except.ok result =>
      if (config.server._metadata.allowed.bind Allowed.prompts).isSome then
        Except.ok (result.filter
          (fun prompt => isAllowed CapabilityKind.prompts prompt.name config.server))
      else Except.ok result

/-- `getPrompt`. -/
def getPrompt {α : Type} (config : ClientConfig) (connectionState : ConnectionState)
    (name : String) (upstream : Except String α) : Except ClientError α := do
  let _ ← ensureConnected connectionState
  if !(isAllowed CapabilityKind.prompts name config.server) then
    Except.error (ClientError.filteredError FilterKind.prompt name)
  else
    match upstream with
    | Except.error _ =>
        Except.error (ClientError.connectionError ("Failed to get prompt " ++ name))
    | Except.ok v => Except.ok v

/-- `listResources`, filtering on resource URIs (the identifying string of a
resource). -/
def listResources (config : ClientConfig) (connectionState : ConnectionState)
    (upstream : Except String (List Resource)) : Except ClientError (List Resource) := do
  let _ ← ensureConnected connectionState
  match upstream with
  | Except.error _ => Except.error (ClientError.connectionError "Failed to list resources")
  | Except.ok result =>
      if (config.server._metadata.allowed.bind Allowed.resources).isSome then
        Except.ok (result.filter
          (fun resource => isAllowed CapabilityKind.resources resource.uri config.server))
      else Except.ok result

/-- `readResource`, keyed by URI. -/
def readResource {α : Type} (config : ClientConfig) (connectionState : ConnectionState)
    (uri : String) (upstream : Except String α) : Except ClientError α := do
  let _ ← ensureConnected connectionState
  if !(isAllowed CapabilityKind.resources uri config.server) then
    Except.error (ClientError.filteredError FilterKind.resource uri)
  else
    match upstream with
    | Except.error _ =>
        Except.error (ClientError.connectionError ("Failed to read resource " ++ uri))
    | Except.ok v => Except.ok v

/-! ### packages/mcpfile/src/manager.ts — `ClientManager` -/

/-- `ServerState.metadata` as the manager stores it (manager.ts
`connectToServer`): only `serverName`, `transportType`, `disabled` and
`allowed` — neither `version` nor `rawConfig`. -/
structure StateMetadata where
  serverName : String
  transportType : TransportType
  disabled : Bool
  allowed : Option Allowed := none
deriving DecidableEq, Repr

/-- The state metadata the manager derives from connect params. -/
def stateMetadataOf (serverParams : ServerConnectParams) : StateMetadata :=
  { serverName := serverParams._metadata.serverName,
    transportType := serverParams.transportType,
    disabled := serverParams._metadata.disabled,
    allowed := serverParams._metadata.allowed }

structure ErrorInfo where
  message : String
  timestamp : Nat
deriving DecidableEq, Repr

/-- `ServerState` of manager.ts (capabilities/version/instructions, opaque
pass-throughs from the SDK, are not modelled). -/
structure ServerStateEntry where
  serverId : String
  connectionState : ConnectionState
  sessionId : Option String := none
  metadata : StateMetadata
  error : Option ErrorInfo := none
  reconnectAttempts : Nat
  lastConnectedAt : Option Nat := none
deriving DecidableEq, Repr

/-- `SerializableServerState` of manager.ts (one server of a persisted
snapshot). -/
structure SerializableServerState where
  serverId : String
  connectionState : ConnectionState
  sessionId : Option String := none
  wasConnected : Bool
  reconnectAttempts : Nat
  lastConnectedAt : Option Nat := none
  error : Option ErrorInfo := none
deriving DecidableEq, Repr

/-- The `shouldConnect` expression of `ClientManager.fromJSON`:
`savedState?.wasConnected && (transportType === "sse" || transportType === "stdio")`. -/
def shouldConnectOnRestore (savedState : Option SerializableServerState)
    (transportType : TransportType) : Bool :=
  (match savedState with
   | some s => s.wasConnected
   | none => false) &&
  (transportType == TransportType.sse || transportType == TransportType.stdio)

/-- The connect decision of `fromJSON`'s restore loop:
`if (shouldConnect || !savedState)` — connect when the snapshot marks a
session-based server as previously connected, or when the server is new. -/
def fromJSONConnects (savedState : Option SerializableServerState)
    (transportType : TransportType) : Bool :=
  shouldConnectOnRestore savedState transportType || savedState.isNone

/-- The ids `fromJSON` connects, given the re-parsed config (id with its
transport type) and the snapshot's server map. -/
def fromJSONRestoredIds (params : List (String × TransportType))
    (snapshot : String → Option SerializableServerState) : List String :=
  (params.filter (fun p => fromJSONConnects (snapshot p.1) p.2)).map Prod.fst

/-- The manager's observable state: the `servers` registry (server id to
managed client, represented by its state metadata), the aggregate state map
(`stateRef`), and the error-hook invocations in order. -/
structure ManagerModel where
  servers : List (String × StateMetadata)
  states : List (String × ServerStateEntry)
  errorHookCalls : List (String × String)
deriving DecidableEq, Repr

def initialManager : ManagerModel :=
  { servers := [], states := [], errorHookCalls := [] }

/-- `updateState`: `{...states, [serverId]: state}` plus the change hook. -/
def updateStateEntry (m : ManagerModel) (serverId : String)
    (st : ServerStateEntry) : ManagerModel :=
  { m with states := setEntry m.states serverId st }

/-- Outcome of one `ManagedClient.create` attempt: the rejected promise's
message, or the created client's observable state. -/
inductive ConnectOutcome where
  | ok (connState : ConnectionState) (sessionId : Option String) : ConnectOutcome
  | failure (message : String) : ConnectOutcome
deriving DecidableEq, Repr

/-- `connectToServer` of manager.ts: on success the client is registered and
its state recorded; on failure (the `catch` branch) a `failed` state entry
with the error message and timestamp is recorded, the error hook fires once,
and the registry is left untouched. -/
def connectToServer (m : ManagerModel) (serverId : String)
    (metadata : StateMetadata) (outcome : ConnectOutcome) (now : Nat) :
    ManagerModel :=
  match outcome with
  | ConnectOutcome.ok connState sessionId =>
      let st : ServerStateEntry :=
        { serverId := serverId, connectionState := connState,
          sessionId := sessionId, metadata := metadata, reconnectAttempts := 0,
          lastConnectedAt :=
            if connState == ConnectionState.connected then some now else none }
      updateStateEntry { m with servers := setEntry m.servers serverId metadata }
        serverId st
  | ConnectOutcome.failure msg =>
      let st : ServerStateEntry :=
        { serverId := serverId, connectionState := ConnectionState.failed,
          metadata := metadata, error := some { message := msg, timestamp := now },
          reconnectAttempts := 0 }
      let m1 := updateStateEntry m serverId st
      { m1 with errorHookCalls := m1.errorHookCalls ++ [(serverId, msg)] }

/-- `connectToServers` of manager.ts: `Promise.allSettled` over
`connectToServer` for every entry — every attempt is processed regardless of
the other attempts' outcomes. -/
def connectToServers (m : ManagerModel) (params : List (String × StateMetadata))
    (outcomes : String → ConnectOutcome) (now : Nat) : ManagerModel :=
  params.foldl (fun acc p => connectToServer acc p.1 p.2 (outcomes p.1) now) m

/-- `disconnectServer` of manager.ts: absent from the registry means no-op;
otherwise the client is closed and both the registry and the aggregate state
drop the entry. -/
def disconnectServer (m : ManagerModel) (serverId : String) : ManagerModel :=
  match lookupEntry m.servers serverId with
  | none => m
  | some _ =>
      { m with servers := removeEntry m.servers serverId,
               states := removeEntry m.states serverId }

/-- `getClient` of manager.ts (`this.servers.get(serverId)?.client`). -/
def getClient (m : ManagerModel) (serverId : String) : Option StateMetadata :=
  lookupEntry m.servers serverId

/-- `getServerIds` of manager.ts (`Array.from(this.servers.keys())`). -/
def getServerIds (m : ManagerModel) : List String :=
  m.servers.map Prod.fst

/-- `getServerState` of manager.ts (lookup in the aggregate state). -/
def getServerState (m : ManagerModel) (serverId : String) :
    Option ServerStateEntry :=
  lookupEntry m.states serverId

/-- Error-hook invocations recorded for one server. -/
def errorHookCount (m : ManagerModel) (serverId : String) : Nat :=
  (m.errorHookCalls.filter (fun c => c.1 == serverId)).length

/-- The manager operations generating its reachable states. -/
inductive ManagerOp where
  | connect (serverId : String) (metadata : StateMetadata)
      (outcome : ConnectOutcome) (now : Nat) : ManagerOp
  | connectMany (params : List (String × StateMetadata))
      (outcomes : String → ConnectOutcome) (now : Nat) : ManagerOp
  | disconnect (serverId : String) : ManagerOp

def managerStep (m : ManagerModel) : ManagerOp → ManagerModel
  | ManagerOp.connect serverId metadata outcome now =>
      connectToServer m serverId metadata outcome now
  | ManagerOp.connectMany params outcomes now =>
      connectToServers m params outcomes now
  | ManagerOp.disconnect serverId => disconnectServer m serverId

def runManager (ops : List ManagerOp) : ManagerModel :=
  ops.foldl managerStep initialManager

/-! ### `JSON.stringify` and the `reloadConfig` diff

`reloadConfig` decides whether a server changed by comparing
`JSON.stringify(current.state.metadata)` with
`JSON.stringify(newConfig._metadata)`. -/

/-- JSON string escaping of `JSON.stringify`. -/
def jsonEscapeChar (c : Char) : List Char :=
  if c == '"' then ['\\', '"']
  else if c == '\\' then ['\\', '\\']
  else if c == '\n' then ['\\', 'n']
  else if c == '\t' then ['\\', 't']
  else if c == '\r' then ['\\', 'r']
  else [c]

def jsonQuote (s : String) : List Char :=
  '"' :: (s.data.flatMap jsonEscapeChar) ++ ['"']

mutual

def jsonStringifyChars : Json → List Char
  | Json.null => ['n', 'u', 'l', 'l']
  | Json.bool true => ['t', 'r', 'u', 'e']
  | Json.bool false => ['f', 'a', 'l', 's', 'e']
  | Json.num n => (toString n).data
  | Json.str s => jsonQuote s
  | Json.arr xs => '[' :: jsonStringifyList xs ++ [']']
  | Json.obj fs => '{' :: jsonStringifyFields fs ++ ['}']

def jsonStringifyList : List Json → List Char
  | [] => []
  | [x] => jsonStringifyChars x
  | x :: xs => jsonStringifyChars x ++ ',' :: jsonStringifyList xs

def jsonStringifyFields : List (String × Json) → List Char
  | [] => []
  | [(k, v)] => jsonQuote k ++ ':' :: jsonStringifyChars v
  | (k, v) :: fs => jsonQuote k ++ ':' :: jsonStringifyChars v ++ ',' :: jsonStringifyFields fs

end

def jsonStringify (j : Json) : String :=
  String.mk (jsonStringifyChars j)

/-- The JSON value of an `Allowed` record (keys in schema shape order,
absent fields omitted — `JSON.stringify` drops `undefined` values). -/
def Allowed.toJson (a : Allowed) : Json :=
  Json.obj
    ((match a.tools with
      | some l => [("tools", Json.arr (l.map Json.str))]
      | none => []) ++
     (match a.prompts with
      | some l => [("prompts", Json.arr (l.map Json.str))]
      | none => []) ++
     (match a.resources with
      | some l => [("resources", Json.arr (l.map Json.str))]
      | none => []))

/-- The JSON value of `ServerState.metadata` as the manager builds it:
insertion order `serverName`, `transportType`, `disabled`, `allowed`
(omitted when undefined). -/
def StateMetadata.toJson (m : StateMetadata) : Json :=
  Json.obj
    ([("serverName", Json.str m.serverName),
      ("transportType", Json.str m.transportType.toStr),
      ("disabled", Json.bool m.disabled)] ++
     (match m.allowed with
      | some a => [("allowed", a.toJson)]
      | none => []))

/-- The JSON value of a descriptor's `_metadata` as `fromJson` builds it:
insertion order `version`, `rawConfig`, `serverName`, `transportType`,
`disabled`, `allowed` (omitted when undefined). -/
def ServerMetadata.toJson (m : ServerMetadata) : Json :=
  Json.obj
    ([("version", Json.str m.version),
      ("rawConfig", m.rawConfig),
      ("serverName", Json.str m.serverName),
      ("transportType", Json.str m.transportType.toStr),
      ("disabled", Json.bool m.disabled)] ++
     (match m.allowed with
      | some a => [("allowed", a.toJson)]
      | none => []))

/-- The change test of `reloadConfig` (manager.ts lines 277-284):
`JSON.stringify(current.state.metadata) !== JSON.stringify(newConfig._metadata)`. -/
def reloadMetadataChanged (currentMetadata : StateMetadata)
    (newMetadata : ServerMetadata) : Bool :=
  jsonStringify currentMetadata.toJson != jsonStringify newMetadata.toJson

/-- The inputs `reloadConfig` works from: the keys of the aggregate state,
the registry with each running connection's stored metadata, and the
re-parsed file's params (id with its `_metadata`). -/
structure ReloadInput where
  stateIds : List String
  registry : List (String × StateMetadata)
  newParams : List (String × ServerMetadata)

/-- The diff loop of `reloadConfig`: walks the new params, removing each id
from the `removed` set; an id without a running connection, or whose
stringified metadata differs, joins the `changed` set. -/
def reloadComputeSets (inp : ReloadInput) : List String × List String :=
  inp.newParams.foldl
    (fun (acc : List String × List String) p =>
      let removed := acc.1.filter (fun id => id != p.1)
      match lookupEntry inp.registry p.1 with
      | none => (removed, acc.2 ++ [p.1])
      | some currentMeta =>
          if reloadMetadataChanged currentMeta p.2 then (removed, acc.2 ++ [p.1])
          else (removed, acc.2))
    (inp.stateIds, [])

inductive ReloadAction where
  | disconnect (serverId : String) : ReloadAction
  | connect (serverId : String) : ReloadAction
deriving DecidableEq, Repr

/-- The action sequence `reloadConfig` performs after the diff: disconnect
every removed server, then for each changed server disconnect it when still
running and (re)connect it. -/
def reloadActions (inp : ReloadInput) : List ReloadAction :=
  let sets := reloadComputeSets inp
  sets.1.map ReloadAction.disconnect ++
  sets.2.foldl
    (fun acts id =>
      acts ++
      (if (lookupEntry inp.registry id).isSome then [ReloadAction.disconnect id] else []) ++
      [ReloadAction.connect id])
    []

/-! ## Helper lemmas -/

theorem hasEntry_cons_false {α : Type} (p : String × α) (rest : List (String × α))
    (key : String) (h : hasEntry (p :: rest) key = false) :
    (p.1 == key) = false ∧ hasEntry rest key = false := by
  rw [hasEntry] at h
  constructor
  · cases hb : (p.1 == key)
    · rfl
    · rw [hb, Bool.true_or] at h; exact h
  · cases hb : hasEntry rest key
    · rfl
    · rw [hb, Bool.or_true] at h; exact h

theorem lookupEntry_map_set {α : Type} (l : List (String × α))
    (key : String) (v : α) (h : hasEntry l key = true) :
    lookupEntry (l.map (fun p => if p.1 == key then (key, v) else p)) key =
      some v := by
  induction l with
  | nil => simp [hasEntry] at h
  | cons p rest ih =>
      by_cases hp : (p.1 == key) = true
      · simp only [List.map_cons, if_pos hp]
        simp only [lookupEntry]
        rw [if_pos (by simp)]
      · have hpf : (p.1 == key) = false := by
          cases hb : (p.1 == key)
          · rfl
          · exact absurd hb hp
        have hrest : hasEntry rest key = true := by
          rw [hasEntry, hpf, Bool.false_or] at h
          exact h
        simp only [List.map_cons, if_neg hp]
        simp only [lookupEntry]
        rw [if_neg hp]
        exact ih hrest

theorem lookupEntry_append_single {α : Type} (l : List (String × α))
    (key : String) (v : α) (h : hasEntry l key = false) :
    lookupEntry (l ++ [(key, v)]) key = some v := by
  induction l with
  | nil =>
      rw [List.nil_append]
      simp only [lookupEntry]
      rw [if_pos (by simp)]
  | cons p rest ih =>
      obtain ⟨hp, hrest⟩ := hasEntry_cons_false p rest key h
      rw [List.cons_append]
      simp only [lookupEntry]
      rw [if_neg (by simp [hp])]
      exact ih hrest

theorem lookupEntry_setEntry_self {α : Type} (l : List (String × α))
    (key : String) (v : α) : lookupEntry (setEntry l key v) key = some v := by
  unfold setEntry
  by_cases h : hasEntry l key
  · simp only [h, if_true]
    exact lookupEntry_map_set l key v h
  · simp only [h, if_false]
    exact lookupEntry_append_single l key v (by simpa using h)

theorem lookupEntry_map_set_ne {α : Type} (l : List (String × α))
    (key other : String) (v : α) (h : other ≠ key) :
    lookupEntry (l.map (fun p => if p.1 == key then (key, v) else p)) other =
      lookupEntry l other := by
  induction l with
  | nil => rfl
  | cons p rest ih =>
      by_cases hp : (p.1 == key) = true
      · have hpe : p.1 = key := by simpa using hp
        have hko : ((key : String) == other) = false := by
          rw [Bool.eq_false_iff]
          simp only [ne_eq, beq_iff_eq]
          exact fun hh => h hh.symm
        have hpo : (p.1 == other) = false := by rw [hpe]; exact hko
        simp only [List.map_cons, if_pos hp]
        simp only [lookupEntry]
        rw [if_neg (by simp [hko]), if_neg (by simp [hpo])]
        exact ih
      · simp only [List.map_cons, if_neg hp]
        simp only [lookupEntry]
        by_cases hpo : (p.1 == other) = true
        · rw [if_pos hpo, if_pos hpo]
        · rw [if_neg hpo, if_neg hpo]
          exact ih

theorem lookupEntry_append_single_ne {α : Type} (l : List (String × α))
    (key other : String) (v : α) (h : other ≠ key) :
    lookupEntry (l ++ [(key, v)]) other = lookupEntry l other := by
  induction l with
  | nil =>
      have hko : ((key : String) == other) = false := by
        rw [Bool.eq_false_iff]
        simp only [ne_eq, beq_iff_eq]
        exact fun hh => h hh.symm
      rw [List.nil_append]
      simp only [lookupEntry]
      rw [if_neg (by simp [hko])]
  | cons p rest ih =>
      rw [List.cons_append]
      simp only [lookupEntry]
      by_cases hpo : (p.1 == other) = true
      · rw [if_pos hpo, if_pos hpo]
      · rw [if_neg hpo, if_neg hpo]
        exact ih

theorem lookupEntry_setEntry_ne {α : Type} (l : List (String × α))
    (key other : String) (v : α) (h : other ≠ key) :
    lookupEntry (setEntry l key v) other = lookupEntry l other := by
  unfold setEntry
  by_cases hk : hasEntry l key
  · simp only [hk, if_true]
    exact lookupEntry_map_set_ne l key other v h
  · simp only [hk, if_false]
    exact lookupEntry_append_single_ne l key other v h

/-! ## Claim theorems -/

/-- C1: `ClientManager.fromJSON` connects a declared server unconditionally
when it is absent from the snapshot; a server present in the snapshot is
connected exactly when its transport is `sse` or `stdio` and its
`wasConnected` flag is set; an `http` server present in the snapshot is
never connected, whatever its flag; and the restore loop connects exactly
the declared servers whose decision is positive. -/
theorem claim_C1 :
    (∀ tt : TransportType, fromJSONConnects none tt = true) ∧
    (∀ (s : SerializableServerState) (tt : TransportType),
      fromJSONConnects (some s) tt = true ↔
        (s.wasConnected = true ∧
          (tt = TransportType.sse ∨ tt = TransportType.stdio))) ∧
    (∀ s : SerializableServerState,
      fromJSONConnects (some s) TransportType.http = false) ∧
    (∀ (params : List (String × TransportType))
       (snapshot : String → Option SerializableServerState)
       (p : String × TransportType),
      p ∈ params → fromJSONConnects (snapshot p.1) p.2 = true →
      p.1 ∈ fromJSONRestoredIds params snapshot) ∧
    (∀ (params : List (String × TransportType))
       (snapshot : String → Option SerializableServerState) (id : String),
      id ∈ fromJSONRestoredIds params snapshot →
      ∃ p ∈ params, p.1 = id ∧ fromJSONConnects (snapshot p.1) p.2 = true) := by
  refine ⟨?_, ?_, ?_, ?_, ?_⟩
  · intro tt
    simp [fromJSONConnects, shouldConnectOnRestore]
  · intro s tt
    cases tt <;>
      simp [fromJSONConnects, shouldConnectOnRestore]
  · intro s
    simp [fromJSONConnects, shouldConnectOnRestore]
  · intro params snapshot p hmem hdec
    unfold fromJSONRestoredIds
    exact List.mem_map_of_mem Prod.fst (List.mem_filter.mpr ⟨hmem, hdec⟩)
  · intro params snapshot id hmem
    unfold fromJSONRestoredIds at hmem
    obtain ⟨p, hp, hid⟩ := List.mem_map.mp hmem
    obtain ⟨hpm, hpd⟩ := List.mem_filter.mp hp
    exact ⟨p, hpm, hid, hpd⟩

/-- C1 witness: a server absent from the snapshot is connected; an `http`
server present in the snapshot is not. -/
theorem claim_C1_witness :
    "b" ∈ fromJSONRestoredIds [("b", TransportType.stdio)] (fun _ => none) ∧
    fromJSONConnects
      (some { serverId := "a", connectionState := ConnectionState.connected,
              wasConnected := true, reconnectAttempts := 0 })
      TransportType.http = false :=
  ⟨claim_C1.2.2.2.1 [("b", TransportType.stdio)] (fun _ => none)
      ("b", TransportType.stdio) (by simp) (by rfl),
   claim_C1.2.2.1 _⟩

theorem clientStep_attempts_le (config : ClientConfig) (s : ClientState)
    (e : ClientEvent)
    (h : s.reconnectAttempts ≤ config.maxReconnectAttempts.getD 5) :
    (clientStep config s e).reconnectAttempts ≤
      config.maxReconnectAttempts.getD 5 := by
  cases e with
  | connectAttempt ok =>
      by_cases hok : ok
      · simp [clientStep, connectStep, hok]
      · simp [clientStep, connectStep, hok, h]
  | transportClose ok =>
      simp only [clientStep, handleDisconnect]
      by_cases hd : s.connectionState == ConnectionState.disconnected
      · simp [hd, h]
      · simp only [hd, Bool.false_eq_true, if_false]
        by_cases hmax : s.reconnectAttempts ≥ config.maxReconnectAttempts.getD 5
        · simp [hmax, h]
        · simp only [hmax, if_false]
          by_cases hok : ok
          · simp [connectStep, hok]
          · simp [connectStep, hok]
            omega
  | explicitDisconnect => simpa [clientStep] using h

theorem runClient_attempts_le_aux (config : ClientConfig)
    (events : List ClientEvent) :
    ∀ s : ClientState,
      s.reconnectAttempts ≤ config.maxReconnectAttempts.getD 5 →
      (events.foldl (clientStep config) s).reconnectAttempts ≤
        config.maxReconnectAttempts.getD 5 := by
  induction events with
  | nil => intro s h; simpa using h
  | cons e rest ih =>
      intro s h
      simpa using ih (clientStep config s e) (clientStep_attempts_le config s e h)

/-- C2: in every reachable state of one connection state machine the
reconnect-attempt counter never exceeds the configured maximum (default 5);
once the counter has reached the maximum, the next unexpected transport
close sets the state to `failed` (not `reconnecting`) and no reconnect is
attempted; with `maxReconnectAttempts = 3`, four consecutive failed
reconnect cycles starting from `connected` end in `failed`; and a
successful connect resets the counter to 0. -/
theorem claim_C2 :
    (∀ (config : ClientConfig) (events : List ClientEvent),
      (runClient config events).reconnectAttempts ≤
        config.maxReconnectAttempts.getD 5) ∧
    (∀ (config : ClientConfig) (s : ClientState) (ok : Bool),
      s.connectionState ≠ ConnectionState.disconnected →
      s.reconnectAttempts = config.maxReconnectAttempts.getD 5 →
      handleDisconnect config s ok =
        { state := { s with connectionState := ConnectionState.failed },
          delay := none, reconnectTried := false }) ∧
    (∀ config : ClientConfig, config.maxReconnectAttempts = some 3 →
      runClient config
        [ClientEvent.connectAttempt true, ClientEvent.transportClose false,
         ClientEvent.transportClose false, ClientEvent.transportClose false,
         ClientEvent.transportClose false] =
        { connectionState := ConnectionState.failed, reconnectAttempts := 3 }) ∧
    (∀ s : ClientState, connectStep s true =
      { connectionState := ConnectionState.connected, reconnectAttempts := 0 }) := by
  refine ⟨?_, ?_, ?_, ?_⟩
  · intro config events
    exact runClient_attempts_le_aux config events initialClientState (by simp [initialClientState])
  · intro config s ok hstate hattempts
    have hd : (s.connectionState == ConnectionState.disconnected) = false := by
      simpa using hstate
    simp [handleDisconnect, hd, hattempts]
  · intro config hm
    simp [runClient, clientStep, handleDisconnect, connectStep, initialClientState, hm,
      List.foldl]
  · intro s
    simp [connectStep]

/-- C2 witness: the maxed-out counter case at a concrete state, and the
concrete 4-failure run with `maxReconnectAttempts = 3`. -/
theorem claim_C2_witness :
    handleDisconnect
      { info := { name := "c", version := "1" },
        server :=
          { transportConfig := TransportConfig.http "https://x" none,
            transportType := TransportType.http,
            _metadata :=
              { version := "0.0.1", rawConfig := Json.obj [], serverName := "a",
                transportType := TransportType.http, disabled := false } } }
      { connectionState := ConnectionState.connected, reconnectAttempts := 5 }
      false =
      { state := { connectionState := ConnectionState.failed, reconnectAttempts := 5 },
        delay := none, reconnectTried := false } ∧
    runClient
      { info := { name := "c", version := "1" },
        server :=
          { transportConfig := TransportConfig.http "https://x" none,
            transportType := TransportType.http,
            _metadata :=
              { version := "0.0.1", rawConfig := Json.obj [], serverName := "a",
                transportType := TransportType.http, disabled := false } },
        maxReconnectAttempts := some 3 }
      [ClientEvent.connectAttempt true, ClientEvent.transportClose false,
       ClientEvent.transportClose false, ClientEvent.transportClose false,
       ClientEvent.transportClose false] =
      { connectionState := ConnectionState.failed, reconnectAttempts := 3 } :=
  ⟨claim_C2.2.1 _ _ false (by simp) (by rfl),
   claim_C2.2.2.1 _ (by rfl)⟩

/-- C3: with the default `initialReconnectDelay = 1000` and
`maxReconnectDelay = 30000`, the backoff slept before the k-th retry is
`min(1000 * 2^(k-1), 30000)`, i.e. 1000, 2000, 4000, 8000, 16000, 30000,
30000, ... milliseconds. -/
theorem claim_C3 :
    (∀ (config : ClientConfig) (k : Nat) (s : ClientState) (ok : Bool),
      config.initialReconnectDelay = none →
      config.maxReconnectDelay = none →
      1 ≤ k →
      k ≤ config.maxReconnectAttempts.getD 5 →
      s.connectionState ≠ ConnectionState.disconnected →
      s.reconnectAttempts = k - 1 →
      (handleDisconnect config s ok).delay =
        some (min (1000 * 2 ^ (k - 1)) 30000)) ∧
    (∀ config : ClientConfig,
      config.initialReconnectDelay = none → config.maxReconnectDelay = none →
      (List.range 7).map (fun i => reconnectDelay config (i + 1)) =
        [1000, 2000, 4000, 8000, 16000, 30000, 30000]) := by
  constructor
  · intro config k s ok hinit hmax hk hkmax hstate hattempts
    have hd : (s.connectionState == ConnectionState.disconnected) = false := by
      simpa using hstate
    have hlt : ¬ (s.reconnectAttempts ≥ config.maxReconnectAttempts.getD 5) := by
      omega
    have hsucc : s.reconnectAttempts + 1 = k := by omega
    simp [handleDisconnect, hd, hlt, reconnectDelay, hinit, hmax, hsucc]
  · intro config hinit hmax
    simp [reconnectDelay, hinit, hmax, List.range_succ]

/-- C3 witness: the backoff before retry 6 at a concrete reconnecting state
is capped at 30000 ms. -/
theorem claim_C3_witness :
    (handleDisconnect
      { info := { name := "c", version := "1" },
        server :=
          { transportConfig := TransportConfig.http "https://x" none,
            transportType := TransportType.http,
            _metadata :=
              { version := "0.0.1", rawConfig := Json.obj [], serverName := "a",
                transportType := TransportType.http, disabled := false } },
        maxReconnectAttempts := some 8 }
      { connectionState := ConnectionState.connected, reconnectAttempts := 5 }
      true).delay = some 30000 := by
  have h := claim_C3.1
    { info := { name := "c", version := "1" },
      server :=
        { transportConfig := TransportConfig.http "https://x" none,
          transportType := TransportType.http,
          _metadata :=
            { version := "0.0.1", rawConfig := Json.obj [], serverName := "a",
              transportType := TransportType.http, disabled := false } },
      maxReconnectAttempts := some 8 }
    6
    { connectionState := ConnectionState.connected, reconnectAttempts := 5 }
    true rfl rfl (by omega) (by simp) (by simp) (by rfl)
  simpa using h

/-- C4: with an `allowed` list for a capability kind, the list operation of
that kind returns exactly the upstream items whose identifying name is a
member of the list under exact string equality, a point operation on a name
outside the list fails with a `FilteredError` identifying the kind and name
while a listed name passes the filter, and a kind without an `allowed`
entry permits every name.  (A resource's identifying string is its URI.) -/
theorem claim_C4 :
    (∀ (server : ServerConnectParams) (a : Allowed) (k : CapabilityKind)
       (L : List String) (n : String),
      server._metadata.allowed = some a → a.forKind k = some L →
      (isAllowed k n server = true ↔ n ∈ L)) ∧
    (∀ (config : ClientConfig) (a : Allowed),
      config.server._metadata.allowed = some a →
      (∀ (L : List String) (up : List Tool), a.tools = some L →
        listTools config ConnectionState.connected (Except.ok up) =
          Except.ok (up.filter (fun t => L.contains t.name)) ∧
        (∀ t : Tool, t ∈ up.filter (fun t => L.contains t.name) ↔
          t ∈ up ∧ t.name ∈ L)) ∧
      (∀ (L : List String) (up : List Prompt), a.prompts = some L →
        listPrompts config ConnectionState.connected (Except.ok up) =
          Except.ok (up.filter (fun p => L.contains p.name)) ∧
        (∀ p : Prompt, p ∈ up.filter (fun p => L.contains p.name) ↔
          p ∈ up ∧ p.name ∈ L)) ∧
      (∀ (L : List String) (up : List Resource), a.resources = some L →
        listResources config ConnectionState.connected (Except.ok up) =
          Except.ok (up.filter (fun r => L.contains r.uri)) ∧
        (∀ r : Resource, r ∈ up.filter (fun r => L.contains r.uri) ↔
          r ∈ up ∧ r.uri ∈ L))) ∧
    (∀ (config : ClientConfig) (a : Allowed),
      config.server._metadata.allowed = some a →
      (∀ (L : List String) (name : String) (α : Type) (up : Except String α),
        a.tools = some L → name ∉ L →
        callTool config ConnectionState.connected name up =
          Except.error (ClientError.filteredError FilterKind.tool name)) ∧
      (∀ (L : List String) (name : String) (α : Type) (v : α),
        a.tools = some L → name ∈ L →
        callTool config ConnectionState.connected name (Except.ok v) =
          Except.ok v) ∧
      (∀ (L : List String) (name : String) (α : Type) (up : Except String α),
        a.prompts = some L → name ∉ L →
        getPrompt config ConnectionState.connected name up =
          Except.error (ClientError.filteredError FilterKind.prompt name)) ∧
      (∀ (L : List String) (name : String) (α : Type) (v : α),
        a.prompts = some L → name ∈ L →
        getPrompt config ConnectionState.connected name (Except.ok v) =
          Except.ok v) ∧
      (∀ (L : List String) (uri : String) (α : Type) (up : Except String α),
        a.resources = some L → uri ∉ L →
        readResource config ConnectionState.connected uri up =
          Except.error (ClientError.filteredError FilterKind.resource uri)) ∧
      (∀ (L : List String) (uri : String) (α : Type) (v : α),
        a.resources = some L → uri ∈ L →
        readResource config ConnectionState.connected uri (Except.ok v) =
          Except.ok v)) ∧
    (∀ (server : ServerConnectParams) (k : CapabilityKind) (n : String),
      server._metadata.allowed = none → isAllowed k n server = true) ∧
    (∀ (server : ServerConnectParams) (a : Allowed) (k : CapabilityKind) (n : String),
      server._metadata.allowed = some a → a.forKind k = none →
      isAllowed k n server = true) ∧
    (∀ (config : ClientConfig) (a : Allowed) (up : List Tool),
      config.server._metadata.allowed = some a → a.tools = none →
      listTools config ConnectionState.connected (Except.ok up) = Except.ok up) := by
  refine ⟨?_, ?_, ?_, ?_, ?_, ?_⟩
  · intro server a k L n ha hk
    simp [isAllowed, ha, hk, List.elem_iff]
  · intro config a ha
    refine ⟨?_, ?_, ?_⟩
    · intro L up hL
      constructor
      · simp [listTools, ensureConnected, ha, hL, isAllowed, Allowed.forKind, bind, Except.bind]
      · intro t
        simp [List.mem_filter, List.elem_iff]
    · intro L up hL
      constructor
      · simp [listPrompts, ensureConnected, ha, hL, isAllowed, Allowed.forKind, bind, Except.bind]
      · intro p
        simp [List.mem_filter, List.elem_iff]
    · intro L up hL
      constructor
      · simp [listResources, ensureConnected, ha, hL, isAllowed, Allowed.forKind, bind, Except.bind]
      · intro r
        simp [List.mem_filter, List.elem_iff]
  · intro config a ha
    refine ⟨?_, ?_, ?_, ?_, ?_, ?_⟩
    · intro L name α up hL hname
      simp [callTool, ensureConnected, isAllowed, ha, hL, Allowed.forKind,
        List.elem_iff, hname, bind, Except.bind]
    · intro L name α v hL hname
      simp [callTool, ensureConnected, isAllowed, ha, hL, Allowed.forKind,
        List.elem_iff, hname, bind, Except.bind]
    · intro L name α up hL hname
      simp [getPrompt, ensureConnected, isAllowed, ha, hL, Allowed.forKind,
        List.elem_iff, hname, bind, Except.bind]
    · intro L name α v hL hname
      simp [getPrompt, ensureConnected, isAllowed, ha, hL, Allowed.forKind,
        List.elem_iff, hname, bind, Except.bind]
    · intro L uri α up hL huri
      simp [readResource, ensureConnected, isAllowed, ha, hL, Allowed.forKind,
        List.elem_iff, huri, bind, Except.bind]
    · intro L uri α v hL huri
      simp [readResource, ensureConnected, isAllowed, ha, hL, Allowed.forKind,
        List.elem_iff, huri, bind, Except.bind]
  · intro server k n ha
    simp [isAllowed, ha]
  · intro server a k n ha hk
    simp [isAllowed, ha, hk]
  · intro config a up ha htools
    simp [listTools, ensureConnected, ha, htools, bind, Except.bind]

/-- C4 witness: with `allowed.tools = ["a"]`, listing tools over upstream
`a`, `b` returns only `a`; calling `b` is filtered; calling `a` passes. -/
theorem claim_C4_witness :
    listTools
      { info := { name := "c", version := "1" },
        server :=
          { transportConfig := TransportConfig.http "https://x" none,
            transportType := TransportType.http,
            _metadata :=
              { version := "0.0.1", rawConfig := Json.obj [], serverName := "s",
                transportType := TransportType.http, disabled := false,
                allowed := some { tools := some ["a"] } } } }
      ConnectionState.connected
      (Except.ok [{ name := "a" }, { name := "b" }]) =
      Except.ok [{ name := "a" }] ∧
    callTool
      { info := { name := "c", version := "1" },
        server :=
          { transportConfig := TransportConfig.http "https://x" none,
            transportType := TransportType.http,
            _metadata :=
              { version := "0.0.1", rawConfig := Json.obj [], serverName := "s",
                transportType := TransportType.http, disabled := false,
                allowed := some { tools := some ["a"] } } } }
      ConnectionState.connected "b" (Except.ok (37 : Nat)) =
      Except.error (ClientError.filteredError FilterKind.tool "b") ∧
    callTool
      { info := { name := "c", version := "1" },
        server :=
          { transportConfig := TransportConfig.http "https://x" none,
            transportType := TransportType.http,
            _metadata :=
              { version := "0.0.1", rawConfig := Json.obj [], serverName := "s",
                transportType := TransportType.http, disabled := false,
                allowed := some { tools := some ["a"] } } } }
      ConnectionState.connected "a" (Except.ok (37 : Nat)) =
      Except.ok 37 := by
  refine ⟨?_, ?_, ?_⟩
  · have h := (claim_C4.2.1
      { info := { name := "c", version := "1" },
        server :=
          { transportConfig := TransportConfig.http "https://x" none,
            transportType := TransportType.http,
            _metadata :=
              { version := "0.0.1", rawConfig := Json.obj [], serverName := "s",
                transportType := TransportType.http, disabled := false,
                allowed := some { tools := some ["a"] } } } }
      { tools := some ["a"] } rfl).1 ["a"] [{ name := "a" }, { name := "b" }] rfl
    rw [h.1]
    rfl
  · exact (claim_C4.2.2.1
      { info := { name := "c", version := "1" },
        server :=
          { transportConfig := TransportConfig.http "https://x" none,
            transportType := TransportType.http,
            _metadata :=
              { version := "0.0.1", rawConfig := Json.obj [], serverName := "s",
                transportType := TransportType.http, disabled := false,
                allowed := some { tools := some ["a"] } } } }
      { tools := some ["a"] } rfl).1 ["a"] "b" Nat (Except.ok 37) rfl (by simp)
  · exact (claim_C4.2.2.1
      { info := { name := "c", version := "1" },
        server :=
          { transportConfig := TransportConfig.http "https://x" none,
            transportType := TransportType.http,
            _metadata :=
              { version := "0.0.1", rawConfig := Json.obj [], serverName := "s",
                transportType := TransportType.http, disabled := false,
                allowed := some { tools := some ["a"] } } } }
      { tools := some ["a"] } rfl).2.1 ["a"] "a" Nat 37 rfl (by simp)

/-- C9: the schema preprocess classifies an entry without a truthy `type` by
field presence, checking `url` before `command` (an entry with both is
`http`, not `stdio`), and keeps an explicit truthy `type` unchanged. -/
theorem claim_C9 :
    (∀ fields : List (String × Json),
      (lookupEntry fields "type").any Json.truthy = false →
      hasEntry fields "url" = true →
      (serverConfigPreprocess (Json.obj fields)).getField "type" =
        some (Json.str "http")) ∧
    (∀ fields : List (String × Json),
      (lookupEntry fields "type").any Json.truthy = false →
      hasEntry fields "url" = false →
      hasEntry fields "command" = true →
      (serverConfigPreprocess (Json.obj fields)).getField "type" =
        some (Json.str "stdio")) ∧
    (∀ (fields : List (String × Json)) (t : Json),
      lookupEntry fields "type" = some t → t.truthy = true →
      serverConfigPreprocess (Json.obj fields) = Json.obj fields) ∧
    ((serverConfigPreprocess (Json.obj
        [("url", Json.str "https://x/mcp"),
         ("command", Json.str "run")])).getField "type" =
      some (Json.str "http")) := by
  refine ⟨?_, ?_, ?_, ?_⟩
  · intro fields htype hurl
    simp [serverConfigPreprocess, htype, serverConfigInferType, hurl,
      Json.getField, lookupEntry_setEntry_self]
  · intro fields htype hurl hcommand
    simp [serverConfigPreprocess, htype, serverConfigInferType, hurl, hcommand,
      Json.getField, lookupEntry_setEntry_self]
  · intro fields t ht htruthy
    simp [serverConfigPreprocess, ht, htruthy]
  · rfl

/-- C9 witness: an entry with both `url` and `command` and no `type` is
classified `http`. -/
theorem claim_C9_witness :
    (serverConfigPreprocess (Json.obj
      [("command", Json.str "run"),
       ("url", Json.str "https://x/mcp")])).getField "type" =
      some (Json.str "http") :=
  claim_C9.1 [("command", Json.str "run"), ("url", Json.str "https://x/mcp")]
    (by rfl) (by rfl)

/-! Lemmas for the interpolation claims -/

theorem isPrefixOf_append_self (l r : List Char) :
    l.isPrefixOf (l ++ r) = true := by
  induction l with
  | nil => simp [List.isPrefixOf]
  | cons c rest ih => simp [List.isPrefixOf, ih]

theorem isPrefixOf_self_chars (l : List Char) : l.isPrefixOf l = true := by
  simpa using isPrefixOf_append_self l []

theorem takeUntilBrace_append (b r : List Char) (h : '}' ∉ b) :
    takeUntilBrace (b ++ '}' :: r) = some (b, r) := by
  induction b with
  | nil => simp [takeUntilBrace]
  | cons c rest ih =>
      have hcn : ¬ ('}' = c ∨ '}' ∈ rest) := by simpa using h
      have hc : (c == '}') = false := by
        simp only [beq_eq_false_iff_ne, ne_eq]
        exact fun hh => hcn (Or.inl hh.symm)
      have hrest : '}' ∉ rest := fun hm => hcn (Or.inr hm)
      simp [takeUntilBrace, hc, ih hrest]

theorem replaceFirst_self (s v : String) (h : s.data ≠ []) :
    replaceFirst s s v = v := by
  rcases hd : s.data with _ | ⟨c, rest⟩
  · exact absurd hd h
  · unfold replaceFirst
    rw [hd]
    simp only [replaceFirstAux]
    rw [if_pos (isPrefixOf_self_chars (c :: rest))]
    rw [List.drop_length]
    rw [List.append_nil]

theorem data_ne_nil_of_ne_empty (b : String) (h : b ≠ "") : b.data ≠ [] := by
  intro hd
  apply h
  cases b with
  | mk d =>
      have hd2 : d = [] := hd
      rw [hd2]

/-- A string consisting of one placeholder `${b}` (body nonempty, no `}`
inside) interpolates to exactly what its variable body resolves to. -/
theorem interpolateValue_single (options : ParseOptions) (sysEnv : SystemEnv)
    (b : String) (hne : b ≠ "") (hnb : '}' ∉ b.data) :
    interpolateValue options sysEnv ("$\x7b" ++ b ++ "\x7d") =
      resolveVariable options sysEnv b := by
  have hdata : ("$\x7b" ++ b ++ "\x7d").data = '$' :: '{' :: (b.data ++ ['}']) := by
    rw [String.data_append, String.data_append]
    rfl
  have hbne : b.data ≠ [] := data_ne_nil_of_ne_empty b hne
  have hempty : b.data.isEmpty = false := by
    rcases hb : b.data with _ | _
    · exact absurd hb hbne
    · rfl
  have hph : String.mk ('$' :: '{' :: b.data ++ ['}']) = "$\x7b" ++ b ++ "\x7d" := by
    cases b with
    | mk d => exact congrArg String.mk (by simp)
  have hmkb : String.mk b.data = b := by cases b; rfl
  have hscan : scanPlaceholders ("$\x7b" ++ b ++ "\x7d").data =
      [("$\x7b" ++ b ++ "\x7d", b)] := by
    rw [hdata]
    unfold scanPlaceholders
    simp [scanPlaceholdersFuel, takeUntilBrace_append b.data [] hnb, hempty, hmkb]
    exact hph
  unfold interpolateValue
  rw [hscan]
  rcases hres : resolveVariable options sysEnv b with e | v
  · simp [interpolateLoop, hres]
  · simp [interpolateLoop, hres,
      replaceFirst_self ("$\x7b" ++ b ++ "\x7d") v (by rw [hdata]; simp)]

theorem resolveVariable_env (options : ParseOptions) (sysEnv : SystemEnv)
    (name : String) :
    resolveVariable options sysEnv ("env:" ++ name) =
      match lookupEnv (options.env.getD sysEnv.procEnv) name with
      | none => Except.error (ConfigError.interpolationError name
          ("Environment variable " ++ name ++ " is not defined"))
      | some envValue => Except.ok envValue := by
  have hsw : strStartsWith ("env:" ++ name) "env:" = true := by
    unfold strStartsWith
    rw [String.data_append]
    exact isPrefixOf_append_self _ _
  have hdrop : strDrop ("env:" ++ name) 4 = name := by
    unfold strDrop
    rw [String.data_append]
    have h4 : List.drop 4 ("env:".data ++ name.data) = name.data := by
      have he : ("env:".data) = ['e', 'n', 'v', ':'] := rfl
      rw [he]
      rfl
    rw [h4]
  simp [resolveVariable, hsw, hdrop]

theorem resolveVariable_workspaceFolder (options : ParseOptions)
    (sysEnv : SystemEnv) :
    resolveVariable options sysEnv "workspaceFolder" =
      match options.workspaceFolder with
      | none => Except.error (ConfigError.interpolationError "workspaceFolder"
          "workspaceFolder is not defined in parse options")
      | some wf =>
          if wf == "" then
            Except.error (ConfigError.interpolationError "workspaceFolder"
              "workspaceFolder is not defined in parse options")
          else Except.ok wf := rfl

theorem resolveVariable_unknown (options : ParseOptions) (sysEnv : SystemEnv)
    (b : String) (h1 : strStartsWith b "env:" = false) (h2 : b ≠ "userHome")
    (h3 : b ≠ "workspaceFolder") :
    resolveVariable options sysEnv b =
      Except.error (ConfigError.interpolationError b
        ("Unknown interpolation variable: " ++ b)) := by
  simp [resolveVariable, h1, h2, h3]

/-- C6 counterexample: the claim asserts `${workspaceFolderBasename}` and
`${pathSeparator}` / `${/}` resolve (to the workspace folder basename and
the platform path separator); `interpolateValue` instead rejects all three
as unknown variables. -/
theorem claim_C6_counterexample :
    interpolateValue { workspaceFolder := some "/w/s" } ⟨[("A", "1")], "/home/u"⟩
        "${pathSeparator}" =
      Except.error (ConfigError.interpolationError "pathSeparator"
        "Unknown interpolation variable: pathSeparator") ∧
    interpolateValue { workspaceFolder := some "/w/s" } ⟨[("A", "1")], "/home/u"⟩
        "${workspaceFolderBasename}" =
      Except.error (ConfigError.interpolationError "workspaceFolderBasename"
        "Unknown interpolation variable: workspaceFolderBasename") ∧
    interpolateValue { workspaceFolder := some "/w/s" } ⟨[("A", "1")], "/home/u"⟩
        "${/}" =
      Except.error (ConfigError.interpolationError "/"
        "Unknown interpolation variable: /") :=
  ⟨rfl, rfl, rfl⟩

/-- C6 (amended): interpolation resolves `${env:NAME}` from the supplied
environment mapping or the process environment and fails with an
`InterpolationError` when `NAME` is absent; resolves `${userHome}` to the
current user's home directory; resolves `${workspaceFolder}` to the
caller-supplied value (defaulted by `fromPath` to the config file's
directory) and fails when it is absent; and fails with an
`InterpolationError` naming the variable on every other variable name —
including `workspaceFolderBasename`, `pathSeparator` and `/`, which are
not supported. -/
theorem claim_C6 :
    (∀ (options : ParseOptions) (sysEnv : SystemEnv) (name v : String),
      '}' ∉ name.data →
      lookupEnv (options.env.getD sysEnv.procEnv) name = some v →
      interpolateValue options sysEnv ("$\x7benv:" ++ name ++ "\x7d") = Except.ok v) ∧
    (∀ (options : ParseOptions) (sysEnv : SystemEnv) (name : String),
      '}' ∉ name.data →
      lookupEnv (options.env.getD sysEnv.procEnv) name = none →
      interpolateValue options sysEnv ("$\x7benv:" ++ name ++ "\x7d") =
        Except.error (ConfigError.interpolationError name
          ("Environment variable " ++ name ++ " is not defined"))) ∧
    (∀ (options : ParseOptions) (sysEnv : SystemEnv),
      interpolateValue options sysEnv "${userHome}" = Except.ok sysEnv.homeDir) ∧
    (∀ (options : ParseOptions) (sysEnv : SystemEnv) (wf : String),
      options.workspaceFolder = some wf → wf ≠ "" →
      interpolateValue options sysEnv "${workspaceFolder}" = Except.ok wf) ∧
    (∀ (options : ParseOptions) (sysEnv : SystemEnv),
      options.workspaceFolder = none →
      interpolateValue options sysEnv "${workspaceFolder}" =
        Except.error (ConfigError.interpolationError "workspaceFolder"
          "workspaceFolder is not defined in parse options")) ∧
    (∀ (configDir : String) (options : ParseOptions),
      options.workspaceFolder = none →
      (fromPathOptions configDir options).workspaceFolder = some configDir) ∧
    (∀ (options : ParseOptions) (sysEnv : SystemEnv) (b : String),
      b ≠ "" → '}' ∉ b.data →
      strStartsWith b "env:" = false → b ≠ "userHome" → b ≠ "workspaceFolder" →
      interpolateValue options sysEnv ("$\x7b" ++ b ++ "\x7d") =
        Except.error (ConfigError.interpolationError b
          ("Unknown interpolation variable: " ++ b))) := by
  have envSplit : ∀ name : String,
      ("$\x7benv:" ++ name ++ "\x7d" : String) = "$\x7b" ++ ("env:" ++ name) ++ "\x7d" := by
    intro name; cases name; rfl
  have envNe : ∀ name : String, ("env:" ++ name : String) ≠ "" := by
    intro name h
    have hd := congrArg String.data h
    rw [String.data_append] at hd
    simp at hd
  have envNb : ∀ name : String, '}' ∉ name.data →
      '}' ∉ ("env:" ++ name : String).data := by
    intro name hn hm
    rw [String.data_append] at hm
    rcases List.mem_append.mp hm with h1 | h2
    · exact absurd h1 (by decide)
    · exact hn h2
  refine ⟨?_, ?_, ?_, ?_, ?_, ?_, ?_⟩
  · intro options sysEnv name v hn hv
    rw [envSplit name,
      interpolateValue_single options sysEnv ("env:" ++ name) (envNe name) (envNb name hn),
      resolveVariable_env, hv]
  · intro options sysEnv name hn hv
    rw [envSplit name,
      interpolateValue_single options sysEnv ("env:" ++ name) (envNe name) (envNb name hn),
      resolveVariable_env, hv]
  · intro options sysEnv
    rw [show ("${userHome}" : String) = "$\x7b" ++ "userHome" ++ "\x7d" from rfl,
      interpolateValue_single options sysEnv "userHome" (by decide) (by decide)]
    rfl
  · intro options sysEnv wf hwf hne
    rw [show ("${workspaceFolder}" : String) = "$\x7b" ++ "workspaceFolder" ++ "\x7d" from rfl,
      interpolateValue_single options sysEnv "workspaceFolder" (by decide) (by decide),
      resolveVariable_workspaceFolder, hwf]
    simp [hne]
  · intro options sysEnv hwf
    rw [show ("${workspaceFolder}" : String) = "$\x7b" ++ "workspaceFolder" ++ "\x7d" from rfl,
      interpolateValue_single options sysEnv "workspaceFolder" (by decide) (by decide),
      resolveVariable_workspaceFolder, hwf]
  · intro configDir options hwf
    simp [fromPathOptions, hwf]
  · intro options sysEnv b hne hnb h1 h2 h3
    rw [interpolateValue_single options sysEnv b hne hnb]
    exact resolveVariable_unknown options sysEnv b h1 h2 h3

/-- C6 witness: concrete present/absent environment variables and concrete
workspace folder resolution. -/
theorem claim_C6_witness :
    interpolateValue { env := some [("TOKEN_A", "s3cr3t")] } ⟨[], "/home/u"⟩
        "${env:TOKEN_A}" = Except.ok "s3cr3t" ∧
    interpolateValue {} ⟨[], "/home/u"⟩ "${env:MISSING_B}" =
      Except.error (ConfigError.interpolationError "MISSING_B"
        "Environment variable MISSING_B is not defined") ∧
    interpolateValue {} ⟨[], "/home/u"⟩ "${userHome}" = Except.ok "/home/u" ∧
    interpolateValue { workspaceFolder := some "/w/s" } ⟨[], "/home/u"⟩
        "${workspaceFolder}" = Except.ok "/w/s" ∧
    interpolateValue {} ⟨[], "/home/u"⟩ "${oops}" =
      Except.error (ConfigError.interpolationError "oops"
        "Unknown interpolation variable: oops") :=
  ⟨claim_C6.1 { env := some [("TOKEN_A", "s3cr3t")] } ⟨[], "/home/u"⟩
      "TOKEN_A" "s3cr3t" (by decide) rfl,
   claim_C6.2.1 {} ⟨[], "/home/u"⟩ "MISSING_B" (by decide) rfl,
   claim_C6.2.2.1 {} ⟨[], "/home/u"⟩,
   claim_C6.2.2.2.1 { workspaceFolder := some "/w/s" } ⟨[], "/home/u"⟩
      "/w/s" rfl (by decide),
   claim_C6.2.2.2.2.2.2 {} ⟨[], "/home/u"⟩ "oops" (by decide) (by decide)
      (by decide) (by decide) (by decide)⟩

theorem fromJsonStep_validation_error (urlOk : String → Bool)
    (sysEnv : SystemEnv) (options : ParseOptions) (acc : ConnectParams)
    (serverId : String) (config : Json) (issues : List String)
    (h : parseServerConfig urlOk config = Except.error issues) :
    fromJsonStep urlOk sysEnv options acc (serverId, config) =
      Except.error (ConfigError.validationError serverId
        "Server configuration validation failed" issues) := by
  simp [fromJsonStep, validateServerConfig, h, bind, Except.bind]

/-- C5 counterexample: the claim says a schema-validation failure of one
server entry excludes only that server and does not abort the parse of its
siblings; on the code, a config with a valid server `a` and an invalid
server `b` fails the whole parse with `b`'s validation error, producing no
output map at all. -/
theorem claim_C5_counterexample :
    fromJson (fun _ => true) ⟨[], "/h"⟩
      (Json.obj [("mcpServers", Json.obj
        [("a", Json.obj [("command", Json.str "echo")]),
         ("b", Json.obj [])])]) {} =
    Except.error (ConfigError.validationError "b"
      "Server configuration validation failed"
      ["url: Required", "command: Required"]) := rfl

/-- C5 (amended): only a missing or non-object top-level `mcpServers` map
fails the parse with the `<root>` validation error; but a schema-validation
failure of any single server entry also aborts the WHOLE parse (the
`Effect.gen` short-circuits), reporting that server's id and field-level
issues — sibling servers, even earlier valid ones, are discarded. -/
theorem claim_C5 :
    (∀ (urlOk : String → Bool) (sysEnv : SystemEnv) (json : Json)
       (options : ParseOptions),
      (json.getField "mcpServers").bind mcpServersEntries = none →
      fromJson urlOk sysEnv json options =
        Except.error (ConfigError.validationError "<root>"
          "Invalid config structure"
          ["mcpServers field is required and must be an object"])) ∧
    (∀ (urlOk : String → Bool) (sysEnv : SystemEnv) (json : Json)
       (options : ParseOptions) (pre post : List (String × Json))
       (serverId : String) (config : Json) (acc : ConnectParams)
       (issues : List String),
      (json.getField "mcpServers").bind mcpServersEntries =
        some (pre ++ (serverId, config) :: post) →
      pre.foldlM (fromJsonStep urlOk sysEnv options) ([] : ConnectParams) =
        Except.ok acc →
      parseServerConfig urlOk config = Except.error issues →
      fromJson urlOk sysEnv json options =
        Except.error (ConfigError.validationError serverId
          "Server configuration validation failed" issues)) := by
  constructor
  · intro urlOk sysEnv json options h
    unfold fromJson
    rw [h]
  · intro urlOk sysEnv json options pre post serverId config acc issues
    intro hentries hpre hval
    unfold fromJson
    rw [hentries]
    show (pre ++ (serverId, config) :: post).foldlM
        (fromJsonStep urlOk sysEnv options) [] =
      Except.error (ConfigError.validationError serverId
        "Server configuration validation failed" issues)
    rw [List.foldlM_append]
    rw [hpre]
    show ((serverId, config) :: post).foldlM (fromJsonStep urlOk sysEnv options) acc = _
    rw [List.foldlM_cons]
    rw [fromJsonStep_validation_error urlOk sysEnv options acc serverId config issues hval]
    rfl

/-- C5 witness: the `<root>` failure at a concrete non-object `mcpServers`,
and the whole-parse abort at the concrete two-server config. -/
theorem claim_C5_witness :
    fromJson (fun _ => true) ⟨[], "/h"⟩ (Json.obj [("mcpServers", Json.null)]) {} =
      Except.error (ConfigError.validationError "<root>" "Invalid config structure"
        ["mcpServers field is required and must be an object"]) ∧
    fromJson (fun _ => true) ⟨[], "/h"⟩
      (Json.obj [("mcpServers", Json.obj
        [("a", Json.obj [("command", Json.str "echo")]),
         ("b", Json.obj [])])]) {} =
      Except.error (ConfigError.validationError "b"
        "Server configuration validation failed"
        ["url: Required", "command: Required"]) :=
  ⟨claim_C5.1 (fun _ => true) ⟨[], "/h"⟩ (Json.obj [("mcpServers", Json.null)]) {} rfl,
   claim_C5.2 (fun _ => true) ⟨[], "/h"⟩
     (Json.obj [("mcpServers", Json.obj
       [("a", Json.obj [("command", Json.str "echo")]),
        ("b", Json.obj [])])]) {}
     [("a", Json.obj [("command", Json.str "echo")])] [] "b" (Json.obj [])
     (fromJson (fun _ => true) ⟨[], "/h"⟩
       (Json.obj [("mcpServers", Json.obj
         [("a", Json.obj [("command", Json.str "echo")])])]) {} |>.toOption.getD [])
     ["url: Required", "command: Required"] rfl (by rfl) rfl⟩

/-- C7: the change test of `reloadConfig` compares the stringified manager
state metadata (keys `serverName`, `transportType`, `disabled`, `allowed`)
against the stringified descriptor metadata (keys `version`, `rawConfig`,
`serverName`, ...).  The two objects have different key sets, so the
comparison is true for EVERY pair of metadata values: `reloadConfig` treats
every still-declared server as changed, and a server whose configuration
did not change at all is nevertheless disconnected and reconnected instead
of being left untouched. -/
theorem claim_C7 :
    (∀ (m1 : StateMetadata) (m2 : ServerMetadata),
      reloadMetadataChanged m1 m2 = true) ∧
    (reloadActions
      { stateIds := ["a"],
        registry := [("a",
          { serverName := "a", transportType := TransportType.stdio,
            disabled := false })],
        newParams := [("a",
          { version := "0.0.1",
            rawConfig := Json.obj [("command", Json.str "echo")],
            serverName := "a", transportType := TransportType.stdio,
            disabled := false })] } =
      [ReloadAction.disconnect "a", ReloadAction.connect "a"]) := by
  constructor
  · intro m1 m2
    unfold reloadMetadataChanged
    simp only [bne_iff_ne, ne_eq]
    intro h
    unfold jsonStringify at h
    have h2 : jsonStringifyChars (StateMetadata.toJson m1) =
        jsonStringifyChars (ServerMetadata.toJson m2) :=
      congrArg String.data h
    unfold StateMetadata.toJson ServerMetadata.toJson at h2
    simp only [List.cons_append] at h2
    simp only [jsonStringifyChars, jsonStringifyFields] at h2
    have hq1 : jsonQuote "serverName" =
        '"' :: 's' :: 'e' :: 'r' :: 'v' :: 'e' :: 'r' :: 'N' :: 'a' :: 'm' :: 'e' :: ['"'] := rfl
    have hq2 : jsonQuote "version" =
        '"' :: 'v' :: 'e' :: 'r' :: 's' :: 'i' :: 'o' :: 'n' :: ['"'] := rfl
    rw [hq1, hq2] at h2
    simp only [List.cons_append] at h2
    injection h2 with ha h2
    injection h2 with hb h2
    injection h2 with hc h2
    exact absurd hc (by decide)
  · rfl

/-! Lemmas about the manager model -/

theorem lookupEntry_removeEntry_self {α : Type} (l : List (String × α))
    (key : String) : lookupEntry (removeEntry l key) key = none := by
  induction l with
  | nil => rfl
  | cons p rest ih =>
      unfold removeEntry at ih ⊢
      by_cases hp : (p.1 == key) = true
      · have hb : (p.1 != key) = false := by simp [bne, hp]
        simp only [List.filter_cons, hb, Bool.false_eq_true, if_false]
        exact ih
      · have hb : (p.1 != key) = true := by simp [bne, hp]
        simp only [List.filter_cons, hb, if_true]
        simp only [lookupEntry]
        rw [if_neg hp]
        exact ih

theorem lookupEntry_removeEntry_ne {α : Type} (l : List (String × α))
    (key other : String) (h : other ≠ key) :
    lookupEntry (removeEntry l key) other = lookupEntry l other := by
  induction l with
  | nil => rfl
  | cons p rest ih =>
      unfold removeEntry at ih ⊢
      by_cases hp : (p.1 == key) = true
      · have hpe : p.1 = key := by simpa using hp
        have hpo : (p.1 == other) = false := by
          rw [hpe]
          simp only [beq_eq_false_iff_ne, ne_eq]
          exact fun hh => h hh.symm
        have hb : (p.1 != key) = false := by simp [bne, hp]
        simp only [List.filter_cons, hb, Bool.false_eq_true, if_false]
        rw [ih]
        simp only [lookupEntry]
        rw [if_neg (by simp [hpo])]
      · have hb : (p.1 != key) = true := by simp [bne, hp]
        simp only [List.filter_cons, hb, if_true]
        simp only [lookupEntry]
        by_cases hpo : (p.1 == other) = true
        · rw [if_pos hpo, if_pos hpo]
        · rw [if_neg hpo, if_neg hpo]
          exact ih

theorem filter_hook_append_ne (calls : List (String × String))
    (sid msg id : String) (h : sid ≠ id) :
    (calls ++ [(sid, msg)]).filter (fun c => c.1 == id) =
      calls.filter (fun c => c.1 == id) := by
  rw [List.filter_append]
  have hs : ((sid, msg).1 == id) = false := by
    simp only [beq_eq_false_iff_ne, ne_eq]
    exact h
  simp [hs]

theorem filter_hook_append_self (calls : List (String × String))
    (id msg : String) :
    (calls ++ [(id, msg)]).filter (fun c => c.1 == id) =
      calls.filter (fun c => c.1 == id) ++ [(id, msg)] := by
  rw [List.filter_append]
  simp

/-- Effects of one `connectToServer` on entries of a DIFFERENT server id:
none — its state entry, registry entry and hook-call record are untouched. -/
theorem connectToServer_frame (m : ManagerModel) (sid id : String)
    (md : StateMetadata) (oc : ConnectOutcome) (now : Nat) (h : sid ≠ id) :
    lookupEntry (connectToServer m sid md oc now).states id =
      lookupEntry m.states id ∧
    (connectToServer m sid md oc now).errorHookCalls.filter (fun c => c.1 == id) =
      m.errorHookCalls.filter (fun c => c.1 == id) ∧
    lookupEntry (connectToServer m sid md oc now).servers id =
      lookupEntry m.servers id := by
  have hne : id ≠ sid := fun hh => h hh.symm
  cases oc with
  | ok cs sess =>
      refine ⟨?_, rfl, ?_⟩
      · exact lookupEntry_setEntry_ne _ _ _ _ hne
      · exact lookupEntry_setEntry_ne _ _ _ _ hne
  | failure msg =>
      refine ⟨?_, ?_, rfl⟩
      · exact lookupEntry_setEntry_ne _ _ _ _ hne
      · exact filter_hook_append_ne _ _ _ _ h

/-- `connectToServers` over entries none of which carry the id leaves that
id's state entry, registry entry and hook-call record untouched. -/
theorem connectToServers_frame (params : List (String × StateMetadata))
    (outcomes : String → ConnectOutcome) (now : Nat) (id : String) :
    ∀ m : ManagerModel, (∀ p ∈ params, p.1 ≠ id) →
    lookupEntry (connectToServers m params outcomes now).states id =
      lookupEntry m.states id ∧
    (connectToServers m params outcomes now).errorHookCalls.filter
        (fun c => c.1 == id) =
      m.errorHookCalls.filter (fun c => c.1 == id) ∧
    lookupEntry (connectToServers m params outcomes now).servers id =
      lookupEntry m.servers id := by
  induction params with
  | nil => intro m _; exact ⟨rfl, rfl, rfl⟩
  | cons p rest ih =>
      intro m hall
      have hp : p.1 ≠ id := hall p (List.mem_cons_self p rest)
      have hrest : ∀ q ∈ rest, q.1 ≠ id :=
        fun q hq => hall q (List.mem_cons_of_mem p hq)
      have hstep := connectToServer_frame m p.1 id p.2 (outcomes p.1) now hp
      have hfold := ih (connectToServer m p.1 p.2 (outcomes p.1) now) hrest
      unfold connectToServers at hfold ⊢
      rw [List.foldl_cons]
      exact ⟨hfold.1.trans hstep.1, hfold.2.1.trans hstep.2.1,
        hfold.2.2.trans hstep.2.2⟩

/-- C8: in a bulk connect every declared server's attempt completes — a
failing server ends with a `failed` aggregate entry carrying the error
message and timestamp and exactly one error-hook invocation, a succeeding
server ends with its client state recorded and no error-hook invocation,
and each server's outcome is independent of every other server's outcome. -/
theorem claim_C8 (m : ManagerModel) (params : List (String × StateMetadata))
    (outcomes : String → ConnectOutcome) (now : Nat) (id : String)
    (md : StateMetadata) (hnodup : (params.map Prod.fst).Nodup)
    (hmem : (id, md) ∈ params) :
    ((getServerState (connectToServers m params outcomes now) id).isSome = true) ∧
    (∀ msg, outcomes id = ConnectOutcome.failure msg →
      getServerState (connectToServers m params outcomes now) id =
        some { serverId := id, connectionState := ConnectionState.failed,
               metadata := md,
               error := some { message := msg, timestamp := now },
               reconnectAttempts := 0 } ∧
      errorHookCount (connectToServers m params outcomes now) id =
        errorHookCount m id + 1) ∧
    (∀ cs sess, outcomes id = ConnectOutcome.ok cs sess →
      getServerState (connectToServers m params outcomes now) id =
        some { serverId := id, connectionState := cs, sessionId := sess,
               metadata := md, reconnectAttempts := 0,
               lastConnectedAt :=
                 if cs == ConnectionState.connected then some now else none } ∧
      errorHookCount (connectToServers m params outcomes now) id =
        errorHookCount m id) := by
  obtain ⟨pre, post, hsplit⟩ := List.append_of_mem hmem
  subst hsplit
  have hmapsplit : (pre ++ (id, md) :: post).map Prod.fst =
      pre.map Prod.fst ++ id :: post.map Prod.fst := by simp
  rw [hmapsplit] at hnodup
  rw [List.nodup_append] at hnodup
  have hidpost : id ∉ post.map Prod.fst := by
    have h2 := hnodup.2.1
    rw [List.nodup_cons] at h2
    exact h2.1
  have hidpre : id ∉ pre.map Prod.fst := by
    intro hmem2
    exact hnodup.2.2 hmem2 (List.mem_cons_self id (post.map Prod.fst))
  have hprene : ∀ p ∈ pre, p.1 ≠ id := by
    intro p hp hcontra
    exact hidpre (hcontra ▸ List.mem_map_of_mem Prod.fst hp)
  have hpostne : ∀ p ∈ post, p.1 ≠ id := by
    intro p hp hcontra
    exact hidpost (hcontra ▸ List.mem_map_of_mem Prod.fst hp)
  have hfold : connectToServers m (pre ++ (id, md) :: post) outcomes now =
      connectToServers
        (connectToServer (connectToServers m pre outcomes now) id md
          (outcomes id) now)
        post outcomes now := by
    unfold connectToServers
    rw [List.foldl_append, List.foldl_cons]
  have hpreframe := connectToServers_frame pre outcomes now id m hprene
  have hpostframe := connectToServers_frame post outcomes now id
    (connectToServer (connectToServers m pre outcomes now) id md
      (outcomes id) now) hpostne
  rw [hfold]
  unfold getServerState errorHookCount
  cases hoc : outcomes id with
  | ok cs sess =>
      rw [hoc] at hpostframe
      have hself : lookupEntry
          (connectToServer (connectToServers m pre outcomes now) id md
            (ConnectOutcome.ok cs sess) now).states id =
          some { serverId := id, connectionState := cs, sessionId := sess,
                 metadata := md, reconnectAttempts := 0,
                 lastConnectedAt :=
                   if cs == ConnectionState.connected then some now else none } := by
        unfold connectToServer updateStateEntry
        exact lookupEntry_setEntry_self _ _ _
      have hhook : (connectToServer (connectToServers m pre outcomes now) id md
            (ConnectOutcome.ok cs sess) now).errorHookCalls =
          (connectToServers m pre outcomes now).errorHookCalls := rfl
      refine ⟨?_, ?_, ?_⟩
      · rw [hpostframe.1, hself]
        rfl
      · intro msg hmsg
        exact absurd hmsg (by simp)
      · intro cs2 sess2 hok
        have hcs : cs = cs2 := by injection hok
        have hsess : sess = sess2 := by injection hok
        subst hcs
        subst hsess
        refine ⟨by rw [hpostframe.1, hself], ?_⟩
        rw [hpostframe.2.1, hhook, hpreframe.2.1]
  | failure msg =>
      rw [hoc] at hpostframe
      have hself : lookupEntry
          (connectToServer (connectToServers m pre outcomes now) id md
            (ConnectOutcome.failure msg) now).states id =
          some { serverId := id, connectionState := ConnectionState.failed,
                 metadata := md,
                 error := some { message := msg, timestamp := now },
                 reconnectAttempts := 0 } := by
        unfold connectToServer updateStateEntry
        exact lookupEntry_setEntry_self _ _ _
      have hhook : (connectToServer (connectToServers m pre outcomes now) id md
            (ConnectOutcome.failure msg) now).errorHookCalls =
          (connectToServers m pre outcomes now).errorHookCalls ++ [(id, msg)] := rfl
      refine ⟨?_, ?_, ?_⟩
      · rw [hpostframe.1, hself]
        rfl
      · intro msg2 hmsg
        have hm : msg = msg2 := by injection hmsg
        subst hm
        refine ⟨by rw [hpostframe.1, hself], ?_⟩
        rw [hpostframe.2.1, hhook, filter_hook_append_self, hpreframe.2.1]
        simp
      · intro cs sess hok
        exact absurd hok (by simp)

/-- C8 witness: three servers connect concurrently, the middle one failing:
servers 1 and 3 reach `connected`, server 2 ends `failed` with one hook
invocation, servers 1 and 3 with none. -/
theorem claim_C8_witness :
    (getServerState
      (connectToServers initialManager
        [("s1", { serverName := "s1", transportType := TransportType.http,
                  disabled := false }),
         ("s2", { serverName := "s2", transportType := TransportType.http,
                  disabled := false }),
         ("s3", { serverName := "s3", transportType := TransportType.http,
                  disabled := false })]
        (fun sid => if sid == "s2" then ConnectOutcome.failure "unreachable"
          else ConnectOutcome.ok ConnectionState.connected none) 7)
      "s2" =
      some { serverId := "s2", connectionState := ConnectionState.failed,
             metadata := { serverName := "s2", transportType := TransportType.http,
                           disabled := false },
             error := some { message := "unreachable", timestamp := 7 },
             reconnectAttempts := 0 }) ∧
    errorHookCount
      (connectToServers initialManager
        [("s1", { serverName := "s1", transportType := TransportType.http,
                  disabled := false }),
         ("s2", { serverName := "s2", transportType := TransportType.http,
                  disabled := false }),
         ("s3", { serverName := "s3", transportType := TransportType.http,
                  disabled := false })]
        (fun sid => if sid == "s2" then ConnectOutcome.failure "unreachable"
          else ConnectOutcome.ok ConnectionState.connected none) 7)
      "s2" = 1 ∧
    (getServerState
      (connectToServers initialManager
        [("s1", { serverName := "s1", transportType := TransportType.http,
                  disabled := false }),
         ("s2", { serverName := "s2", transportType := TransportType.http,
                  disabled := false }),
         ("s3", { serverName := "s3", transportType := TransportType.http,
                  disabled := false })]
        (fun sid => if sid == "s2" then ConnectOutcome.failure "unreachable"
          else ConnectOutcome.ok ConnectionState.connected none) 7)
      "s3" =
      some { serverId := "s3", connectionState := ConnectionState.connected,
             metadata := { serverName := "s3", transportType := TransportType.http,
                           disabled := false },
             reconnectAttempts := 0, lastConnectedAt := some 7 }) ∧
    errorHookCount
      (connectToServers initialManager
        [("s1", { serverName := "s1", transportType := TransportType.http,
                  disabled := false }),
         ("s2", { serverName := "s2", transportType := TransportType.http,
                  disabled := false }),
         ("s3", { serverName := "s3", transportType := TransportType.http,
                  disabled := false })]
        (fun sid => if sid == "s2" then ConnectOutcome.failure "unreachable"
          else ConnectOutcome.ok ConnectionState.connected none) 7)
      "s3" = 0 := by
  have h2 := claim_C8 initialManager
    [("s1", { serverName := "s1", transportType := TransportType.http,
              disabled := false }),
     ("s2", { serverName := "s2", transportType := TransportType.http,
              disabled := false }),
     ("s3", { serverName := "s3", transportType := TransportType.http,
              disabled := false })]
    (fun sid => if sid == "s2" then ConnectOutcome.failure "unreachable"
      else ConnectOutcome.ok ConnectionState.connected none) 7
    "s2" { serverName := "s2", transportType := TransportType.http,
           disabled := false }
    (by simp) (by simp)
  have h3 := claim_C8 initialManager
    [("s1", { serverName := "s1", transportType := TransportType.http,
              disabled := false }),
     ("s2", { serverName := "s2", transportType := TransportType.http,
              disabled := false }),
     ("s3", { serverName := "s3", transportType := TransportType.http,
              disabled := false })]
    (fun sid => if sid == "s2" then ConnectOutcome.failure "unreachable"
      else ConnectOutcome.ok ConnectionState.connected none) 7
    "s3" { serverName := "s3", transportType := TransportType.http,
           disabled := false }
    (by simp) (by simp)
  have h2f := h2.2.1 "unreachable" (by rfl)
  have h3o := h3.2.2 ConnectionState.connected none (by rfl)
  refine ⟨h2f.1, ?_, ?_, ?_⟩
  · rw [h2f.2]
    rfl
  · have := h3o.1
    simpa using this
  · rw [h3o.2]
    rfl

/-- Every server id present in the registry has an aggregate-state entry. -/
def registryStateInvariant (m : ManagerModel) : Prop :=
  ∀ id : String, (lookupEntry m.servers id).isSome = true →
    (lookupEntry m.states id).isSome = true

theorem registryStateInvariant_connectToServer (m : ManagerModel)
    (sid : String) (md : StateMetadata) (oc : ConnectOutcome) (now : Nat)
    (hinv : registryStateInvariant m) :
    registryStateInvariant (connectToServer m sid md oc now) := by
  intro id hsome
  cases oc with
  | ok cs sess =>
      by_cases hid : id = sid
      · subst hid
        unfold connectToServer updateStateEntry
        simp only [lookupEntry_setEntry_self, Option.isSome_some]
      · unfold connectToServer updateStateEntry at hsome ⊢
        simp only at hsome ⊢
        rw [lookupEntry_setEntry_ne _ _ _ _ hid] at hsome ⊢
        exact hinv id hsome
  | failure msg =>
      by_cases hid : id = sid
      · subst hid
        unfold connectToServer updateStateEntry
        simp only [lookupEntry_setEntry_self, Option.isSome_some]
      · unfold connectToServer updateStateEntry at hsome ⊢
        simp only at hsome ⊢
        rw [lookupEntry_setEntry_ne _ _ _ _ hid]
        exact hinv id hsome

theorem registryStateInvariant_connectToServers
    (params : List (String × StateMetadata)) (outcomes : String → ConnectOutcome)
    (now : Nat) :
    ∀ m : ManagerModel, registryStateInvariant m →
      registryStateInvariant (connectToServers m params outcomes now) := by
  induction params with
  | nil => intro m hinv; exact hinv
  | cons p rest ih =>
      intro m hinv
      unfold connectToServers at ih ⊢
      rw [List.foldl_cons]
      exact ih _ (registryStateInvariant_connectToServer m p.1 p.2
        (outcomes p.1) now hinv)

theorem registryStateInvariant_disconnectServer (m : ManagerModel)
    (sid : String) (hinv : registryStateInvariant m) :
    registryStateInvariant (disconnectServer m sid) := by
  intro id hsome
  unfold disconnectServer at hsome ⊢
  cases hl : lookupEntry m.servers sid with
  | none =>
      rw [hl] at hsome
      simp only at hsome ⊢
      exact hinv id hsome
  | some md =>
      rw [hl] at hsome
      simp only at hsome ⊢
      by_cases hid : id = sid
      · subst hid
        rw [lookupEntry_removeEntry_self] at hsome
        simp at hsome
      · rw [lookupEntry_removeEntry_ne _ _ _ hid] at hsome ⊢
        exact hinv id hsome

theorem registryStateInvariant_step (m : ManagerModel) (op : ManagerOp)
    (hinv : registryStateInvariant m) :
    registryStateInvariant (managerStep m op) := by
  cases op with
  | connect sid md oc now =>
      exact registryStateInvariant_connectToServer m sid md oc now hinv
  | connectMany params outcomes now =>
      exact registryStateInvariant_connectToServers params outcomes now m hinv
  | disconnect sid => exact registryStateInvariant_disconnectServer m sid hinv

theorem registryStateInvariant_run_aux (ops : List ManagerOp) :
    ∀ m : ManagerModel, registryStateInvariant m →
      registryStateInvariant (ops.foldl managerStep m) := by
  induction ops with
  | nil => intro m hinv; exact hinv
  | cons op rest ih =>
      intro m hinv
      rw [List.foldl_cons]
      exact ih _ (registryStateInvariant_step m op hinv)

/-- C10: a failed single-server connect records a `failed` aggregate-state
entry (with the error) but does not register the server: `getClient` stays
`undefined` and `getServerIds` omits it; consequently in every reachable
manager state the registry keys are a subset of the aggregate-state keys,
while the converse fails in a reachable state. -/
theorem claim_C10 :
    (∀ (m : ManagerModel) (id : String) (md : StateMetadata) (msg : String)
       (now : Nat),
      (connectToServer m id md (ConnectOutcome.failure msg) now).servers =
        m.servers ∧
      getServerState (connectToServer m id md (ConnectOutcome.failure msg) now) id =
        some { serverId := id, connectionState := ConnectionState.failed,
               metadata := md,
               error := some { message := msg, timestamp := now },
               reconnectAttempts := 0 } ∧
      (lookupEntry m.servers id = none →
        getClient (connectToServer m id md (ConnectOutcome.failure msg) now) id =
          none)) ∧
    (∀ (ops : List ManagerOp), registryStateInvariant (runManager ops)) ∧
    (getClient
        (runManager [ManagerOp.connect "a"
          { serverName := "a", transportType := TransportType.http,
            disabled := false }
          (ConnectOutcome.failure "boom") 5]) "a" = none ∧
      "a" ∉ getServerIds
        (runManager [ManagerOp.connect "a"
          { serverName := "a", transportType := TransportType.http,
            disabled := false }
          (ConnectOutcome.failure "boom") 5]) ∧
      (getServerState
        (runManager [ManagerOp.connect "a"
          { serverName := "a", transportType := TransportType.http,
            disabled := false }
          (ConnectOutcome.failure "boom") 5]) "a").isSome = true) := by
  refine ⟨?_, ?_, ?_⟩
  · intro m id md msg now
    refine ⟨rfl, ?_, ?_⟩
    · unfold getServerState connectToServer updateStateEntry
      exact lookupEntry_setEntry_self _ _ _
    · intro hnone
      unfold getClient connectToServer updateStateEntry
      exact hnone
  · intro ops
    exact registryStateInvariant_run_aux ops initialManager
      (fun id hsome => by simp [initialManager, lookupEntry] at hsome)
  · refine ⟨rfl, ?_, rfl⟩
    simp [runManager, managerStep, connectToServer, updateStateEntry,
      getServerIds, initialManager]

/-- C10 witness: the failure branch at a concrete manager with an empty
registry. -/
theorem claim_C10_witness :
    getClient
      (connectToServer initialManager "a"
        { serverName := "a", transportType := TransportType.http,
          disabled := false }
        (ConnectOutcome.failure "boom") 5) "a" = none :=
  (claim_C10.1 initialManager "a"
    { serverName := "a", transportType := TransportType.http, disabled := false }
    "boom" 5).2.2 rfl

end Mcpfile
